import Mathlib

/-!
Verification development for the weather-forecast integration of the events
API (file src/integrations/weather.py, class DailyWeatherForecastCalendar,
method fetch_events).

The shallow embedding below models the method as a pure function.  Python
floats are modelled as rationals (every numeric literal appearing in the
source, such as 11.25 and 22.5, is binary-exact, so the arithmetic of the
aggregation is captured exactly on exact inputs).  Python datetimes at UTC
midnight are represented by the day number since the Unix epoch; the
conversion of a day number to the YYYYMMDD string of strftime uses the
standard civil-from-days algorithm.  The two outbound HTTP requests are
modelled as oracle functions from the request parameters to a response, a
response being either a transport failure (requests.RequestException) or a
status code with an optional parsed JSON body (None modelling a body on
which response.json() raises).  Exceptions are modelled by an error monad:
fastapi.HTTPException, requests.RequestException and all other Python
exceptions are the three constructors of PyExc, and the outer
try/except of fetch_events is the function translateExc.
-/

/-! ### Python string primitives -/

/-- Whitespace characters stripped by Python str.strip (ASCII range). -/
def pyWhitespace : List Char := [' ', '\t', '\n', '\r', Char.ofNat 11, Char.ofNat 12]

def isPySpace (c : Char) : Bool := pyWhitespace.contains c

/-- Model of Python str.strip(). -/
def pyStrip (s : String) : String :=
  String.mk (((s.toList.dropWhile isPySpace).reverse.dropWhile isPySpace).reverse)

def asciiLower (c : Char) : Char :=
  if 'A' ≤ c ∧ c ≤ 'Z' then Char.ofNat (c.toNat + 32) else c

def asciiUpper (c : Char) : Char :=
  if 'a' ≤ c ∧ c ≤ 'z' then Char.ofNat (c.toNat - 32) else c

/-- Model of Python str.lower() (ASCII case mapping). -/
def pyLower (s : String) : String := String.mk (s.toList.map asciiLower)

/-- Model of Python str.capitalize(): first character upper-cased, the rest
lower-cased (ASCII case mapping). -/
def pyCapitalize (s : String) : String :=
  match s.toList with
  | [] => s
  | c :: rest => String.mk (asciiUpper c :: rest.map asciiLower)

def startsWithChars : List Char → List Char → Bool
  | _, [] => true
  | [], _ :: _ => false
  | a :: as, b :: bs => a == b && startsWithChars as bs

def containsChars : List Char → List Char → Bool
  | [], needle => needle.isEmpty
  | c :: rest, needle => startsWithChars (c :: rest) needle || containsChars rest needle

/-- Model of the Python substring test (needle in haystack). -/
def containsStr (haystack needle : String) : Bool :=
  containsChars haystack.toList needle.toList

def digitsVal (ds : List Char) : Nat :=
  ds.foldl (fun acc c => 10 * acc + (c.toNat - 48)) 0

/-- Model of Python int(str): surrounding whitespace stripped, optional sign,
then a nonempty run of decimal digits; None when int() would raise
ValueError.  (Underscore separators and non-ASCII digits, which Python also
accepts, are not modelled; no upstream value in the claims uses them.) -/
def parseIntPy (s : String) : Option Int :=
  match (pyStrip s).toList with
  | [] => none
  | '+' :: ds =>
      if ds ≠ [] ∧ ds.all Char.isDigit then some (digitsVal ds : Int) else none
  | '-' :: ds =>
      if ds ≠ [] ∧ ds.all Char.isDigit then some (-(digitsVal ds : Int)) else none
  | ds =>
      if ds.all Char.isDigit then some (digitsVal ds : Int) else none

/-! ### Calendar-date rendering (datetime.date and strftime "%Y%m%d") -/

def digitChar (n : Nat) : Char :=
  match n with
  | 0 => '0' | 1 => '1' | 2 => '2' | 3 => '3' | 4 => '4'
  | 5 => '5' | 6 => '6' | 7 => '7' | 8 => '8' | 9 => '9'
  | _ => '*'

def twoDigits (n : Nat) : List Char := [digitChar (n / 10 % 10), digitChar (n % 10)]

def fourDigits (n : Nat) : List Char :=
  [digitChar (n / 1000 % 10), digitChar (n / 100 % 10), digitChar (n / 10 % 10), digitChar (n % 10)]

def isLeapYear (y : Nat) : Bool :=
  (y % 4 == 0 && y % 100 != 0) || y % 400 == 0

def daysInYear (y : Nat) : Nat := if isLeapYear y then 366 else 365

def monthLen (leap : Bool) (m : Nat) : Nat :=
  if m = 2 then (if leap then 29 else 28)
  else if m = 4 ∨ m = 6 ∨ m = 9 ∨ m = 11 then 30 else 31

/-- Gregorian year containing a day offset: starting from year y, subtract
whole year lengths while they fit.  Returns the year and the remaining
day-of-year offset.  The first argument is recursion fuel; every use below
supplies enough fuel for the whole datetime range. -/
def yearFrom : Nat → Nat → Nat → Nat × Nat
  | 0, y, d => (y, d)
  | fuel + 1, y, d =>
    if d < daysInYear y then (y, d) else yearFrom fuel (y + 1) (d - daysInYear y)

/-- Gregorian month containing a day-of-year offset: starting from month m,
subtract whole month lengths while they fit.  Returns the month and the
remaining zero-based day offset. -/
def monthFrom : Nat → Bool → Nat → Nat → Nat × Nat
  | 0, _, m, d => (m, d)
  | fuel + 1, leap, m, d =>
    if d < monthLen leap m then (m, d) else monthFrom fuel leap (m + 1) (d - monthLen leap m)

/-- Civil date (year, month, one-based day) of a day number counted from
1970-01-01. -/
def civilOfDay (z : Nat) : Nat × Nat × Nat :=
  let yr := yearFrom 9000 1970 z
  let md := monthFrom 14 (isLeapYear yr.1) 1 yr.2
  (yr.1, md.1, md.2 + 1)

/-- Model of start_dt.strftime("%Y%m%d") for the UTC midnight of a day
number: the civil date rendered as a zero-padded eight-digit string.  Day
numbers are nonnegative throughout the claims (timestamps at or after the
epoch); for negative day numbers the model renders the epoch date. -/
def dateStr (z : Int) : String :=
  let c := civilOfDay z.toNat
  String.mk (fourDigits c.1 ++ twoDigits c.2.1 ++ twoDigits c.2.2)

/-! ### Python numeric helpers over rationals -/

/-- Model of Python int() on a number: truncation toward zero. -/
def pyTrunc (q : ℚ) : Int := Int.tdiv q.num (q.den : Int)

/-- Model of min(l) if l else 0 (Python min of a nonempty list). -/
def pyMin (l : List ℚ) : ℚ :=
  match l with
  | [] => 0
  | x :: xs => xs.foldl min x

/-- Model of max(l) if l else 0. -/
def pyMax (l : List ℚ) : ℚ :=
  match l with
  | [] => 0
  | x :: xs => xs.foldl max x

/-- Model of sum(l)/len(l) if l else 0. -/
def pyAvg (l : List ℚ) : ℚ :=
  if l = [] then 0 else l.sum / (l.length : ℚ)

def roundHalfEven (t : ℚ) : Int :=
  let f := t.floor
  let r := t - (f : ℚ)
  if r < 1 / 2 then f
  else if 1 / 2 < r then f + 1
  else if f % 2 = 0 then f else f + 1

/-- Model of the format specifier :.1f - one decimal digit, round half to
even.  (CPython rounds the shortest decimal form of the binary float; on the
exact rationals used throughout the claims the two agree.) -/
def fmt1 (q : ℚ) : String :=
  let n := roundHalfEven (10 * q)
  (if n < 0 then "-" else "") ++ toString (n.natAbs / 10) ++ "." ++ toString (n.natAbs % 10)

/-! ### Data model -/

/-- Modelled from the spec: make_slug comes from the utils module, which is
not under src.  The spec requires slugification to be deterministic and
filesystem/ICS-safe: lowercase, non-alphanumeric collapsed to a separator. -/
def make_slug (s : String) : String :=
  String.intercalate "-" (((pyLower s).split (fun c => !c.isAlphanum)).filter (fun t => t ≠ ""))

/-- Modelled from the spec: the Event record of base.models (not under src);
its fields are exactly those the source constructs (uid, title, start, end,
all_day, description, location).  start and end are UTC-midnight datetimes,
represented as day numbers since the epoch. -/
structure Event where
  uid : String
  title : String
  start : Int
  end_ : Int
  all_day : Bool
  description : String
  location : String
deriving DecidableEq, Repr

/-- fastapi.HTTPException as raised by the source: a status code plus a
detail string. -/
structure HTTPException where
  status_code : Int
  detail : String
deriving DecidableEq, Repr

/-- The three kinds of exception distinguished by the try/except of
fetch_events: HTTPException, requests.RequestException (which includes both
transport failures and raise_for_status errors), and any other exception
(KeyError, IndexError, ValueError, ...), carried with its str() message. -/
inductive PyExc where
  | httpExc (e : HTTPException)
  | reqExc (msg : String)
  | otherExc (msg : String)
deriving DecidableEq, Repr

/-- A JSON primitive as it can appear in the "cod" field: a string or an
integer. -/
inductive JPrim where
  | jstr (s : String)
  | jint (n : Int)
deriving DecidableEq, Repr

/-- One entry of the geocoding result list.  Fields are optional: a missing
lat or lon raises KeyError in the source, name and country are read with
defaults. -/
structure GeoEntry where
  lat : Option ℚ
  lon : Option ℚ
  name : Option String
  country : Option String
deriving DecidableEq, Repr

/-- Parsed JSON body of the geocoding response: either a dict (with the
fields the source inspects: "cod", "message", plus a flag recording whether
any other key is present, which only matters for Python truthiness of the
dict) or a list of entries. -/
inductive GeoBody where
  | jdict (cod : Option JPrim) (message : Option String) (extra : Bool)
  | jlist (entries : List GeoEntry)
deriving DecidableEq, Repr

/-- One element of a sample's "weather" list: the source reads "main" and
"description" with defaults. -/
structure WeatherCond where
  main : Option String
  description : Option String
deriving DecidableEq, Repr

/-- One 3-hour forecast sample.  dt models forecast.get("dt", 0), so a
missing timestamp is already the value 0.  The optional numeric fields model
main.get("temp", 0) and friends: None means the key is absent and the source
substitutes 0.  weather = none models a missing "weather" key (the source
substitutes [{}]); weather = some [] is a present but empty list, on which
the source raises IndexError. -/
structure Sample where
  dt : Int
  temp : Option ℚ
  humidity : Option ℚ
  pressure : Option ℚ
  wind_speed : Option ℚ
  wind_deg : Option ℚ
  clouds_all : Option ℚ
  weather : Option (List WeatherCond)
deriving DecidableEq, Repr

/-- Parsed JSON body of the forecast response: a dict (with "cod",
"message", and the optional "list" of samples) or any non-dict value, for
which the source skips the dict-shaped error checks and then fails the
"list" containment test. -/
inductive ForeBody where
  | jdict (cod : Option JPrim) (message : Option String) (lst : Option (List Sample))
  | jother
deriving DecidableEq, Repr

/-- Query parameters of the geocoding request as built by the source. -/
structure GeoParams where
  q : String
  limit : Int
  appid : String
deriving DecidableEq, Repr

/-- Query parameters of the forecast request as built by the source. -/
structure ForecastParams where
  lat : ℚ
  lon : ℚ
  units : String
  appid : String
deriving DecidableEq, Repr

/-- Outcome of requests.get: a raised RequestException (network error or
timeout) with its message, or a response with a status code and an optional
parsed JSON body (none models a body on which .json() raises). -/
inductive HttpResp (β : Type) where
  | transportErr (msg : String)
  | response (status_code : Int) (body : Option β)
deriving DecidableEq, Repr

/-! ### The emoji table

The source file stores its emoji literals in a double-encoded (mojibake)
form; Python parses the file as UTF-8, so the function returns exactly those
code-point sequences.  The definitions below reproduce the literal content
of the file, code point by code point. -/

def emojiClear : String :=
  String.mk [Char.ofNat 0xe2, Char.ofNat 0x2dc, Char.ofNat 0x20ac, Char.ofNat 0xef, Char.ofNat 0xb8]

def emojiFewClouds : String :=
  String.mk [Char.ofNat 0xf0, Char.ofNat 0x178, Char.ofNat 0x152, Char.ofNat 0xa4, Char.ofNat 0xef, Char.ofNat 0xb8]

def emojiBrokenClouds : String :=
  String.mk [Char.ofNat 0xe2, Char.ofNat 0x203a, Char.ofNat 0x2026]

def emojiClouds : String :=
  String.mk [Char.ofNat 0xe2, Char.ofNat 0x2dc, Char.ofNat 0xef, Char.ofNat 0xb8]

def emojiLightRain : String :=
  String.mk [Char.ofNat 0xf0, Char.ofNat 0x178, Char.ofNat 0x152, Char.ofNat 0xa6, Char.ofNat 0xef, Char.ofNat 0xb8]

def emojiRain : String :=
  String.mk [Char.ofNat 0xf0, Char.ofNat 0x178, Char.ofNat 0x152, Char.ofNat 0xa7, Char.ofNat 0xef, Char.ofNat 0xb8]

def emojiThunderstorm : String :=
  String.mk [Char.ofNat 0xe2, Char.ofNat 0x203a, Char.ofNat 0x2c6, Char.ofNat 0xef, Char.ofNat 0xb8]

def emojiLightSnow : String :=
  String.mk [Char.ofNat 0xf0, Char.ofNat 0x178, Char.ofNat 0x152, Char.ofNat 0xa8, Char.ofNat 0xef, Char.ofNat 0xb8]

def emojiSnow : String :=
  String.mk [Char.ofNat 0xe2, Char.ofNat 0x201e, Char.ofNat 0xef, Char.ofNat 0xb8]

def emojiMist : String :=
  String.mk [Char.ofNat 0xf0, Char.ofNat 0x178, Char.ofNat 0x152, Char.ofNat 0xab, Char.ofNat 0xef, Char.ofNat 0xb8]

def emojiTornado : String :=
  String.mk [Char.ofNat 0xf0, Char.ofNat 0x178, Char.ofNat 0x152, Char.ofNat 0xaa, Char.ofNat 0xef, Char.ofNat 0xb8]

def emojiSquall : String :=
  String.mk [Char.ofNat 0xf0, Char.ofNat 0x178, Char.ofNat 0x2019, Char.ofNat 0xa8]

def emojiAsh : String :=
  String.mk [Char.ofNat 0xf0, Char.ofNat 0x178, Char.ofNat 0x152, Char.ofNat 0x2039]

def emojiThermometer : String :=
  String.mk [Char.ofNat 0xf0, Char.ofNat 0x178, Char.ofNat 0x152, Char.ofNat 0xa1, Char.ofNat 0xef, Char.ofNat 0xb8]

/-- Embedding of get_weather_emoji from src/integrations/weather.py. -/
def get_weather_emoji (condition : String) (description : String) : String :=
  let condition_lower := pyLower condition
  let description_lower := pyLower description
  if condition_lower = "clear" then emojiClear
  else if condition_lower = "clouds" then
    (if containsStr description_lower "few" || containsStr description_lower "scattered" then
      emojiFewClouds
     else if containsStr description_lower "broken" then emojiBrokenClouds
     else emojiClouds)
  else if condition_lower = "rain" ∨ condition_lower = "drizzle" then
    (if containsStr description_lower "light" || containsStr description_lower "drizzle" then
      emojiLightRain
     else if containsStr description_lower "heavy" || containsStr description_lower "extreme" then
      emojiRain
     else emojiRain)
  else if condition_lower = "thunderstorm" then emojiThunderstorm
  else if condition_lower = "snow" then
    (if containsStr description_lower "light" then emojiLightSnow
     else if containsStr description_lower "heavy" then emojiSnow
     else emojiSnow)
  else if condition_lower = "mist" ∨ condition_lower = "fog" ∨ condition_lower = "haze" then
    emojiMist
  else if condition_lower = "dust" ∨ condition_lower = "sand" then emojiTornado
  else if condition_lower = "tornado" then emojiTornado
  else if condition_lower = "squall" then emojiSquall
  else if condition_lower = "ash" then emojiAsh
  else emojiThermometer

/-! ### HTTP error handling stages -/

/-- Model of response.raise_for_status(): raises an HTTPError (a
RequestException) exactly for status codes 400-599.  The message text of
requests (reason and URL) is abstracted; no claim depends on it. -/
def raise_for_status (status_code : Int) : Option String :=
  if 400 ≤ status_code ∧ status_code < 600 then
    some ("HTTP error " ++ toString status_code)
  else none

/-- Model of int(data.get("cod", 500)): 500 when the key is absent, the
integer itself, or the parse of a string value - a ValueError when the
string does not parse. -/
def codToInt (cod : Option JPrim) : Except PyExc Int :=
  match cod with
  | none => .ok 500
  | some (.jint n) => .ok n
  | some (.jstr s) =>
    match parseIntPy s with
    | some n => .ok n
    | none => .error (.otherExc ("invalid literal for int() with base 10: '" ++ s ++ "'"))

/-- The dict-shaped error checks applied to both response bodies: the
"cod" = "401" and "cod" = "429" string comparisons, then the
message-present-and-cod-not-"200" branch mapping the cod field to a status
code. -/
def bodyErrorCheck (cod : Option JPrim) (message : Option String) : Option PyExc :=
  if cod = some (.jstr "401") then
    some (.httpExc ⟨401, message.getD "Invalid API key"⟩)
  else if cod = some (.jstr "429") then
    some (.httpExc ⟨429, message.getD "API rate limit exceeded"⟩)
  else if message.isSome ∧ cod ≠ some (.jstr "200") then
    (match codToInt cod with
     | .ok n => some (.httpExc ⟨n, "Weather API error: " ++ message.getD "Unknown error"⟩)
     | .error e => some e)
  else none

/-- Python truthiness of the parsed geocode body: an empty dict or an empty
list is falsy. -/
def geoFalsy : GeoBody → Bool
  | .jdict cod message extra => cod.isNone && message.isNone && !extra
  | .jlist entries => entries.isEmpty

/-- The geocoding step of fetch_events: status-code checks, body parse
check, dict-shaped error checks, raise_for_status, the empty-result 404, and
extraction of lat, lon and the display city name.  Subscripting a nonempty
dict body with 0 raises KeyError(0), whose str() is "0"; a missing lat or
lon key raises KeyError likewise. -/
def geocodeStage (resp : HttpResp GeoBody) (location : String) : Except PyExc (ℚ × ℚ × String) :=
  match resp with
  | .transportErr msg => .error (.reqExc msg)
  | .response status_code body =>
    if status_code = 401 then .error (.httpExc ⟨401, "Invalid API key"⟩)
    else if status_code = 429 then .error (.httpExc ⟨429, "API rate limit exceeded"⟩)
    else
      match body with
      | none =>
        (match raise_for_status status_code with
         | some m => .error (.reqExc m)
         | none => .error (.httpExc ⟨500, "Invalid response from weather API"⟩))
      | some b =>
        match (match b with
               | .jdict cod message _ => bodyErrorCheck cod message
               | .jlist _ => none) with
        | some e => .error e
        | none =>
          match raise_for_status status_code with
          | some m => .error (.reqExc m)
          | none =>
            if geoFalsy b then .error (.httpExc ⟨404, "Location not found: " ++ location⟩)
            else
              match b with
              | .jdict _ _ _ => .error (.otherExc "0")
              | .jlist [] => .error (.otherExc "0")
              | .jlist (e0 :: _) =>
                match e0.lat with
                | none => .error (.otherExc "'lat'")
                | some lat =>
                  match e0.lon with
                  | none => .error (.otherExc "'lon'")
                  | some lon => .ok (lat, lon, e0.name.getD location)

/-- The forecast-fetch step: the same status and dict-shaped error handling
as the geocoding step, then the "list" containment check. -/
def forecastStage (resp : HttpResp ForeBody) : Except PyExc (List Sample) :=
  match resp with
  | .transportErr msg => .error (.reqExc msg)
  | .response status_code body =>
    if status_code = 401 then .error (.httpExc ⟨401, "Invalid API key"⟩)
    else if status_code = 429 then .error (.httpExc ⟨429, "API rate limit exceeded"⟩)
    else
      match body with
      | none =>
        (match raise_for_status status_code with
         | some m => .error (.reqExc m)
         | none => .error (.httpExc ⟨500, "Invalid response from weather API"⟩))
      | some b =>
        match (match b with
               | .jdict cod message _ => bodyErrorCheck cod message
               | .jother => none) with
        | some e => .error e
        | none =>
          match raise_for_status status_code with
          | some m => .error (.reqExc m)
          | none =>
            match b with
            | .jdict _ _ (some l) => .ok l
            | _ => .error (.httpExc ⟨500, "Invalid forecast response format"⟩)

/-! ### Day bucketing and aggregation -/

/-- Per-sample values appended to the parallel per-day lists of
daily_forecasts: each missing numeric field defaults to 0, and the primary
weather condition is the first element of the "weather" list (an empty dict
when the key is absent). -/
structure Extracted where
  temp : ℚ
  humidity : ℚ
  pressure : ℚ
  wind_speed : ℚ
  wind_deg : ℚ
  clouds_all : ℚ
  cond : WeatherCond
deriving DecidableEq, Repr

/-- UTC calendar day of a sample: floor of the timestamp over 86400 seconds
(datetime.utcfromtimestamp(ts).date() as a day number). -/
def sampleDay (s : Sample) : Int := s.dt / 86400

def extractOf (s : Sample) : Extracted :=
  { temp := s.temp.getD 0
    humidity := s.humidity.getD 0
    pressure := s.pressure.getD 0
    wind_speed := s.wind_speed.getD 0
    wind_deg := s.wind_deg.getD 0
    clouds_all := s.clouds_all.getD 0
    cond := match s.weather with
            | some (c :: _) => c
            | _ => ⟨none, none⟩ }

/-- Per-sample failure points of the bucketing loop:
datetime.utcfromtimestamp raises outside the datetime year range 1..9999,
and subscripting a present-but-empty "weather" list raises IndexError. -/
def checkSample (s : Sample) : Except PyExc Extracted :=
  if s.dt < -62135596800 ∨ 253402300799 < s.dt then
    .error (.otherExc "timestamp out of range for utcfromtimestamp")
  else
    match s.weather with
    | some [] => .error (.otherExc "list index out of range")
    | _ => .ok (extractOf s)

/-- The bucketing loop over forecast_data["list"]: samples with timestamp 0
are skipped, the rest are extracted in order, tagged with their day key; the
first raising sample aborts the whole call. -/
def checkSamples : List Sample → Except PyExc (List (Int × Extracted))
  | [] => .ok []
  | s :: rest =>
    if s.dt = 0 then checkSamples rest
    else
      match checkSample s with
      | .error e => .error e
      | .ok x =>
        match checkSamples rest with
        | .error e => .error e
        | .ok l => .ok ((sampleDay s, x) :: l)

/-- The samples that take part in bucketing: those with a nonzero
timestamp. -/
def validSamples (l : List Sample) : List Sample := l.filter (fun s => s.dt != 0)

/-- Number of distinct UTC day keys among the samples with nonzero
timestamps. -/
def distinctDayCount (l : List Sample) : Nat :=
  (((validSamples l).map sampleDay).dedup).length

/-- The day bucket of a day key: the valid samples of that UTC day, in
arrival order. -/
def bucketSamples (l : List Sample) (z : Int) : List Sample :=
  (validSamples l).filter (fun s => sampleDay s = z)

/-- Unit symbol for temperatures.  The degree sign in the source file is
itself stored double-encoded, as the two code points 0xc2 0xb0; the
embedding reproduces the file content exactly. -/
def temp_unit_of (units : String) : String :=
  if units = "metric" then String.mk [Char.ofNat 0xc2, Char.ofNat 0xb0, 'C']
  else if units = "imperial" then String.mk [Char.ofNat 0xc2, Char.ofNat 0xb0, 'F']
  else "K"

def wind_unit_of (units : String) : String :=
  if units = "metric" then "m/s" else if units = "imperial" then "mph" else "m/s"

def directions : List String :=
  ["N", "NNE", "NE", "ENE", "E", "ESE", "SE", "SSE",
   "S", "SSW", "SW", "WSW", "W", "WNW", "NW", "NNW"]

/-- Compass point of a wind direction: directions[int((deg + 11.25) / 22.5) % 16]. -/
def compassOf (deg : ℚ) : String :=
  directions.getD ((pyTrunc ((deg + 45 / 4) / (45 / 2)) % 16).toNat) "N"

/-- Representative condition of a day bucket: the element at the numeric
midpoint index; ("Unknown", "Unknown") for an empty bucket.  Returns the
pair (condition, capitalized description). -/
def condAndDesc (conds : List WeatherCond) : String × String :=
  match conds with
  | [] => ("Unknown", "Unknown")
  | _ :: _ =>
    let primary := conds.getD (conds.length / 2) ⟨none, none⟩
    (primary.main.getD "Unknown", pyCapitalize (primary.description.getD ""))

/-- The six description parts always present, in source order. -/
def descParts (temp_unit wind_unit : String) (temp_min temp_max : ℚ) (descr : String)
    (humidity_avg wind_speed_avg clouds_avg pressure_avg : ℚ) : List String :=
  ["Temperature: " ++ toString (pyTrunc temp_min) ++ temp_unit ++ " - " ++
     toString (pyTrunc temp_max) ++ temp_unit,
   "Condition: " ++ descr,
   "Humidity: " ++ toString (pyTrunc humidity_avg) ++ "%",
   "Wind: " ++ fmt1 wind_speed_avg ++ " " ++ wind_unit,
   "Clouds: " ++ toString (pyTrunc clouds_avg) ++ "%",
   "Pressure: " ++ toString (pyTrunc pressure_avg) ++ " hPa"]

/-- Conversion of one day bucket into an Event, following the body of the
per-day loop of fetch_events. -/
def buildEvent (units location_display : String) (day_key : Int) (xs : List Extracted) : Event :=
  let temp_unit := temp_unit_of units
  let wind_unit := wind_unit_of units
  let temps := xs.map (·.temp)
  let temp_min := pyMin temps
  let temp_max := pyMax temps
  let temp_avg := pyAvg temps
  let humidity_avg := pyAvg (xs.map (·.humidity))
  let wind_speed_avg := pyAvg (xs.map (·.wind_speed))
  let clouds_avg := pyAvg (xs.map (·.clouds_all))
  let pressure_avg := pyAvg (xs.map (·.pressure))
  let cd := condAndDesc (xs.map (·.cond))
  let emoji := get_weather_emoji cd.1 cd.2
  let wind_degs := (xs.map (·.wind_deg)).filter (fun d => 0 < d)
  let wind_deg_avg := pyAvg wind_degs
  let title := emoji ++ " " ++ toString (pyTrunc temp_avg) ++ temp_unit ++ " " ++ location_display
  let base := descParts temp_unit wind_unit temp_min temp_max cd.2
    humidity_avg wind_speed_avg clouds_avg pressure_avg
  let parts := if 0 < wind_deg_avg then base ++ ["Wind Direction: " ++ compassOf wind_deg_avg]
               else base
  { uid := "weather-" ++ make_slug location_display ++ "-" ++ dateStr day_key
    title := title
    start := day_key
    end_ := day_key + 1
    all_day := true
    description := String.intercalate " | " parts
    location := location_display }

def sortInts (l : List Int) : List Int := List.insertionSort (· ≤ ·) l

/-- Steps 3 of fetch_events: bucket the samples by day, take the first
(clamped) days of the sorted distinct day keys, and build one Event per
day.  sorted(daily_forecasts.keys()) is the ascending arrangement of the
distinct day keys, which sortInts of the deduplicated key list computes. -/
def aggregateEvents (days : Int) (units location_display : String) (samples : List Sample) :
    Except PyExc (List Event) :=
  match checkSamples samples with
  | .error e => .error e
  | .ok checked =>
    let sorted_days := (sortInts (checked.map (·.1)).dedup).take days.toNat
    .ok (sorted_days.map (fun z =>
      buildEvent units location_display z ((checked.filter (fun p => p.1 = z)).map (·.2))))

/-! ### Input validation and the assembled pipeline -/

/-- Python truthiness test not s or not s.strip() applied to an optional
string. -/
def optBlank (s : Option String) : Bool :=
  match s with
  | none => true
  | some v => v == "" || pyStrip v == ""

/-- The api-key resolution of fetch_events: parameter first, environment
fallback, and the final strip. -/
def resolveApiKey (api_key env_api_key : Option String) : Option String :=
  let k := if optBlank api_key then env_api_key else api_key
  if optBlank k then none else some (pyStrip (k.getD ""))

def apiKeyNotConfiguredMsg : String :=
  "OpenWeatherMap API key not configured. Please set OPENWEATHERMAP_API_KEY environment variable or provide api_key parameter."

/-- The days clamp: outside 1..5 the value is clamped to min(max(days,1),5). -/
def clampDays (days : Int) : Int :=
  if days < 1 ∨ 5 < days then min (max days 1) 5 else days

/-- The units normalization: lower-case, then default to metric when the
result is not one of the three accepted values. -/
def normUnits (units : String) : String :=
  let u := pyLower units
  if u = "metric" ∨ u = "imperial" ∨ u = "kelvin" then u else "metric"

/-- The pipeline from the point where the api key is resolved: input
normalization, the geocoding request, the forecast request, aggregation. -/
def pipelineWithKey (location : String) (days : Int) (units : String) (api_key : String)
    (geocode : GeoParams → HttpResp GeoBody) (forecast : ForecastParams → HttpResp ForeBody) :
    Except PyExc (List Event) :=
  let days' := clampDays days
  let location' := pyStrip location
  let units' := normUnits units
  match geocodeStage (geocode ⟨location', 1, api_key⟩) location' with
  | .error e => .error e
  | .ok (lat, lon, location_display) =>
    match forecastStage (forecast ⟨lat, lon, units', api_key⟩) with
    | .error e => .error e
    | .ok samples => aggregateEvents days' units' location_display samples

/-- The body of the try block of fetch_events. -/
def fetch_events_body (location : String) (api_key : Option String) (days : Int) (units : String)
    (env_api_key : Option String)
    (geocode : GeoParams → HttpResp GeoBody) (forecast : ForecastParams → HttpResp ForeBody) :
    Except PyExc (List Event) :=
  if pyStrip location = "" then .error (.httpExc ⟨400, "Location is required"⟩)
  else
    match resolveApiKey api_key env_api_key with
    | none => .error (.httpExc ⟨500, apiKeyNotConfiguredMsg⟩)
    | some k => pipelineWithKey location days units k geocode forecast

/-- The outer try/except of fetch_events: HTTPException propagates,
RequestException becomes 502, anything else becomes 500 with the original
message attached. -/
def translateExc : Except PyExc (List Event) → Except HTTPException (List Event)
  | .ok evs => .ok evs
  | .error (.httpExc e) => .error e
  | .error (.reqExc m) => .error ⟨502, "Weather API request failed: " ++ m⟩
  | .error (.otherExc m) => .error ⟨500, "Failed to fetch weather events: " ++ m⟩

/-- Embedding of DailyWeatherForecastCalendar.fetch_events.  The two
outbound requests are supplied as oracles mapping the query parameters the
source builds to the response of the endpoint; env_api_key is the value of
the OPENWEATHERMAP_API_KEY environment variable. -/
def fetch_events (location : String) (api_key : Option String) (days : Int) (units : String)
    (env_api_key : Option String)
    (geocode : GeoParams → HttpResp GeoBody) (forecast : ForecastParams → HttpResp ForeBody) :
    Except HTTPException (List Event) :=
  translateExc (fetch_events_body location api_key days units env_api_key geocode forecast)

deriving instance DecidableEq for Except

/-! ### Concrete fixtures used by witnesses and counterexamples -/

/-- A forecast sample with fixed humidity 50, pressure 1000, wind speed 0,
cloud cover 0 and no weather list, parametrized by timestamp, temperature
and wind degree. -/
def plainSample (ts : Int) (t : Option ℚ) (deg : Option ℚ) : Sample :=
  { dt := ts, temp := t, humidity := some 50, pressure := some 1000,
    wind_speed := some 0, wind_deg := deg, clouds_all := some 0, weather := none }

/-- A geocoding oracle answering every query with one London entry at the
origin. -/
def exGeo : GeoParams → HttpResp GeoBody := fun _ =>
  .response 200 (some (.jlist
    [{ lat := some 0, lon := some 0, name := some "London", country := some "GB" }]))

/-- A forecast oracle answering every query with HTTP 200 and the given
sample list. -/
def exFore (l : List Sample) : ForecastParams → HttpResp ForeBody := fun _ =>
  .response 200 (some (.jdict none none (some l)))

def exSample : Sample := plainSample 86400 (some 10) (some 0)

/-- Two samples of the same UTC day whose wind-degree readings are -10 and
30. -/
def exWindA : Sample := plainSample 86400 (some 0) (some (-10))

def exWindB : Sample := plainSample 97200 (some 0) (some 30)

/-- Samples of one UTC day with temperatures 10, missing, 20. -/
def exNoTemp : Sample := plainSample 90000 none (some 0)

def exT15 : Sample := plainSample 90000 (some 15) (some 0)

def exT20 : Sample := plainSample 93600 (some 20) (some 0)

/-! ### Statement vocabulary for the claims -/

/-- Temperatures of the bucket of day z, with the 0 default for missing
values. -/
def dayTemps (samples : List Sample) (z : Int) : List ℚ :=
  (bucketSamples samples z).map (fun s => s.temp.getD 0)

/-- Wind-degree readings of the bucket of day z, with the 0 default. -/
def dayWindDegs (samples : List Sample) (z : Int) : List ℚ :=
  (bucketSamples samples z).map (fun s => s.wind_deg.getD 0)

/-- Extracted per-sample values of the bucket of day z. -/
def dayExtracts (samples : List Sample) (z : Int) : List Extracted :=
  (bucketSamples samples z).map extractOf

/-- The six always-present description parts of the day z of a response. -/
def dayBaseParts (units : String) (samples : List Sample) (z : Int) : List String :=
  descParts (temp_unit_of units) (wind_unit_of units)
    (pyMin ((dayExtracts samples z).map (fun x => x.temp)))
    (pyMax ((dayExtracts samples z).map (fun x => x.temp)))
    (condAndDesc ((dayExtracts samples z).map (fun x => x.cond))).2
    (pyAvg ((dayExtracts samples z).map (fun x => x.humidity)))
    (pyAvg ((dayExtracts samples z).map (fun x => x.wind_speed)))
    (pyAvg ((dayExtracts samples z).map (fun x => x.clouds_all)))
    (pyAvg ((dayExtracts samples z).map (fun x => x.pressure)))

/-- The property stated by the wind-direction claim for one emitted event
(with the mean taken over the strictly positive readings): when no reading
of the day is positive, the description is exactly the six base parts; when
some reading is positive, the description is the six base parts plus a
final clause rendering the compass point of the mean positive reading. -/
def windDirectionSpec (units : String) (samples : List Sample) (ev : Event) : Prop :=
  ∃ z : Int, ev.start = z ∧
    ((dayWindDegs samples z).filter (fun d => 0 < d) = [] →
      ev.description = String.intercalate " | " (dayBaseParts units samples z)) ∧
    ((dayWindDegs samples z).filter (fun d => 0 < d) ≠ [] →
      ev.description = String.intercalate " | " (dayBaseParts units samples z ++
        ["Wind Direction: " ++
          compassOf (pyAvg ((dayWindDegs samples z).filter (fun d => 0 < d)))]))

/-- The property stated by the temperature-statistics claim for one emitted
event: the computed minimum and maximum are the least and greatest sample
temperatures of the day, the computed average is the arithmetic mean, and
the title renders the integer-truncated average. -/
def tempStatsSpec (units location_display : String) (samples : List Sample) (ev : Event) :
    Prop :=
  ∃ z : Int, ev.start = z ∧
    (dayTemps samples z ≠ [] →
      pyMin (dayTemps samples z) ∈ dayTemps samples z ∧
      (∀ t ∈ dayTemps samples z, pyMin (dayTemps samples z) ≤ t) ∧
      pyMax (dayTemps samples z) ∈ dayTemps samples z ∧
      (∀ t ∈ dayTemps samples z, t ≤ pyMax (dayTemps samples z)) ∧
      pyAvg (dayTemps samples z) = (dayTemps samples z).sum / ((dayTemps samples z).length : ℚ)) ∧
    ev.title = get_weather_emoji
        (condAndDesc ((dayExtracts samples z).map (fun x => x.cond))).1
        (condAndDesc ((dayExtracts samples z).map (fun x => x.cond))).2 ++ " " ++
      toString (pyTrunc (pyAvg (dayTemps samples z))) ++ temp_unit_of units ++ " " ++
      location_display

/-! ### Lemmas: calendar-date rendering is injective on the datetime range -/

theorem daysInYear_bounds (y : Nat) : 365 ≤ daysInYear y ∧ daysInYear y ≤ 366 := by
  unfold daysInYear; split <;> omega

theorem monthLen_bounds (leap : Bool) (m : Nat) : 28 ≤ monthLen leap m ∧ monthLen leap m ≤ 31 := by
  unfold monthLen; split_ifs <;> omega

theorem yearFrom_fst_ge : ∀ (fuel y d : Nat), y ≤ (yearFrom fuel y d).1 := by
  intro fuel
  induction fuel with
  | zero => intro y d; simp [yearFrom]
  | succ n ih =>
    intro y d
    simp only [yearFrom]
    split
    · exact le_refl y
    · exact le_trans (Nat.le_succ y) (ih (y + 1) (d - daysInYear y))

theorem yearFrom_fst_le : ∀ (fuel y d : Nat), (yearFrom fuel y d).1 ≤ y + d / 365 := by
  intro fuel
  induction fuel with
  | zero => intro y d; simp [yearFrom]
  | succ n ih =>
    intro y d
    simp only [yearFrom]
    split
    · omega
    · have h1 := ih (y + 1) (d - daysInYear y)
      have h2 := daysInYear_bounds y
      omega

theorem yearFrom_snd_lt : ∀ (fuel y d : Nat), d < 365 * fuel →
    (yearFrom fuel y d).2 < daysInYear (yearFrom fuel y d).1 := by
  intro fuel
  induction fuel with
  | zero => intro y d h; omega
  | succ n ih =>
    intro y d h
    simp only [yearFrom]
    split
    · assumption
    · have h2 := daysInYear_bounds y
      exact ih (y + 1) (d - daysInYear y) (by omega)

theorem yearFrom_inj : ∀ (fuel y d1 d2 : Nat), d1 ≤ d2 → d2 < 365 * fuel →
    yearFrom fuel y d1 = yearFrom fuel y d2 → d1 = d2 := by
  intro fuel
  induction fuel with
  | zero => intro y d1 d2 _ h; omega
  | succ n ih =>
    intro y d1 d2 hle hlt heq
    have hb := daysInYear_bounds y
    simp only [yearFrom] at heq
    by_cases h1 : d1 < daysInYear y <;> by_cases h2 : d2 < daysInYear y <;>
      simp only [h1, h2, if_pos, if_neg, if_true, if_false] at heq
    · exact congrArg Prod.snd heq
    · exfalso
      have := yearFrom_fst_ge n (y + 1) (d2 - daysInYear y)
      have := congrArg Prod.fst heq
      simp at this
      omega
    · omega
    · have := ih (y + 1) (d1 - daysInYear y) (d2 - daysInYear y) (by omega) (by omega) heq
      omega

theorem monthFrom_fst_ge : ∀ (fuel : Nat) (leap : Bool) (m d : Nat), m ≤ (monthFrom fuel leap m d).1 := by
  intro fuel
  induction fuel with
  | zero => intro leap m d; simp [monthFrom]
  | succ n ih =>
    intro leap m d
    simp only [monthFrom]
    split
    · exact le_refl m
    · exact le_trans (Nat.le_succ m) (ih leap (m + 1) (d - monthLen leap m))

theorem monthFrom_fst_le : ∀ (fuel : Nat) (leap : Bool) (m d : Nat),
    (monthFrom fuel leap m d).1 ≤ m + d / 28 := by
  intro fuel
  induction fuel with
  | zero => intro leap m d; simp [monthFrom]
  | succ n ih =>
    intro leap m d
    simp only [monthFrom]
    split
    · omega
    · have h1 := ih leap (m + 1) (d - monthLen leap m)
      have h2 := monthLen_bounds leap m
      omega

theorem monthFrom_snd_lt : ∀ (fuel : Nat) (leap : Bool) (m d : Nat), d < 28 * fuel →
    (monthFrom fuel leap m d).2 < monthLen leap (monthFrom fuel leap m d).1 := by
  intro fuel
  induction fuel with
  | zero => intro leap m d h; omega
  | succ n ih =>
    intro leap m d h
    simp only [monthFrom]
    split
    · assumption
    · have h2 := monthLen_bounds leap m
      exact ih leap (m + 1) (d - monthLen leap m) (by omega)

theorem monthFrom_inj : ∀ (fuel : Nat) (leap : Bool) (m d1 d2 : Nat), d1 ≤ d2 → d2 < 28 * fuel →
    monthFrom fuel leap m d1 = monthFrom fuel leap m d2 → d1 = d2 := by
  intro fuel
  induction fuel with
  | zero => intro leap m d1 d2 _ h; omega
  | succ n ih =>
    intro leap m d1 d2 hle hlt heq
    have hb := monthLen_bounds leap m
    simp only [monthFrom] at heq
    by_cases h1 : d1 < monthLen leap m <;> by_cases h2 : d2 < monthLen leap m <;>
      simp only [h1, h2, if_pos, if_neg, if_true, if_false] at heq
    · exact congrArg Prod.snd heq
    · exfalso
      have := monthFrom_fst_ge n leap (m + 1) (d2 - monthLen leap m)
      have := congrArg Prod.fst heq
      simp at this
      omega
    · omega
    · have := ih leap (m + 1) (d1 - monthLen leap m) (d2 - monthLen leap m) (by omega) (by omega) heq
      omega

theorem digitChar_inj_fin : ∀ a b : Fin 10, digitChar a.val = digitChar b.val → a = b := by decide

theorem digitChar_inj (a b : Nat) (ha : a < 10) (hb : b < 10) (h : digitChar a = digitChar b) :
    a = b := by
  have := digitChar_inj_fin ⟨a, ha⟩ ⟨b, hb⟩ h
  simpa using this

theorem dateDigits_inj (y1 m1 d1 y2 m2 d2 : Nat)
    (h : String.mk (fourDigits y1 ++ twoDigits m1 ++ twoDigits d1)
       = String.mk (fourDigits y2 ++ twoDigits m2 ++ twoDigits d2)) :
    y1 % 10000 = y2 % 10000 ∧ m1 % 100 = m2 % 100 ∧ d1 % 100 = d2 % 100 := by
  have h0 : fourDigits y1 ++ twoDigits m1 ++ twoDigits d1
          = fourDigits y2 ++ twoDigits m2 ++ twoDigits d2 := by injection h
  simp only [fourDigits, twoDigits, List.cons_append, List.nil_append,
    List.cons.injEq, and_true] at h0
  obtain ⟨h1, h2, h3, h4, h5, h6, h7, h8⟩ := h0
  have e1 := digitChar_inj _ _ (Nat.mod_lt _ (by omega)) (Nat.mod_lt _ (by omega)) h1
  have e2 := digitChar_inj _ _ (Nat.mod_lt _ (by omega)) (Nat.mod_lt _ (by omega)) h2
  have e3 := digitChar_inj _ _ (Nat.mod_lt _ (by omega)) (Nat.mod_lt _ (by omega)) h3
  have e4 := digitChar_inj _ _ (Nat.mod_lt _ (by omega)) (Nat.mod_lt _ (by omega)) h4
  have e5 := digitChar_inj _ _ (Nat.mod_lt _ (by omega)) (Nat.mod_lt _ (by omega)) h5
  have e6 := digitChar_inj _ _ (Nat.mod_lt _ (by omega)) (Nat.mod_lt _ (by omega)) h6
  have e7 := digitChar_inj _ _ (Nat.mod_lt _ (by omega)) (Nat.mod_lt _ (by omega)) h7
  have e8 := digitChar_inj _ _ (Nat.mod_lt _ (by omega)) (Nat.mod_lt _ (by omega)) h8
  omega

theorem dateStr_inj (z1 z2 : Int) (h1l : 0 ≤ z1) (h1u : z1 ≤ 2932896)
    (h2l : 0 ≤ z2) (h2u : z2 ≤ 2932896) (hne : z1 ≠ z2) : dateStr z1 ≠ dateStr z2 := by
  intro h
  apply hne
  unfold dateStr civilOfDay at h
  dsimp only at h
  set n1 := z1.toNat with hn1
  set n2 := z2.toNat with hn2
  obtain ⟨yd1, yd2, yd3⟩ := dateDigits_inj _ _ _ _ _ _ h
  -- year components
  have hy1ge := yearFrom_fst_ge 9000 1970 n1
  have hy2ge := yearFrom_fst_ge 9000 1970 n2
  have hy1le := yearFrom_fst_le 9000 1970 n1
  have hy2le := yearFrom_fst_le 9000 1970 n2
  have hb1 : n1 ≤ 2932896 := by omega
  have hb2 : n2 ≤ 2932896 := by omega
  have hy1 : (yearFrom 9000 1970 n1).1 ≤ 10005 := by
    have : n1 / 365 ≤ 8035 := by omega
    omega
  have hy2 : (yearFrom 9000 1970 n2).1 ≤ 10005 := by
    have : n2 / 365 ≤ 8035 := by omega
    omega
  have hyeq : (yearFrom 9000 1970 n1).1 = (yearFrom 9000 1970 n2).1 := by omega
  -- remaining day-of-year offsets
  have hr1 := yearFrom_snd_lt 9000 1970 n1 (by omega)
  have hr2 := yearFrom_snd_lt 9000 1970 n2 (by omega)
  have hd1 := daysInYear_bounds (yearFrom 9000 1970 n1).1
  have hd2 := daysInYear_bounds (yearFrom 9000 1970 n2).1
  -- month components
  set leap1 := isLeapYear (yearFrom 9000 1970 n1).1 with hl1
  set leap2 := isLeapYear (yearFrom 9000 1970 n2).1 with hl2
  have hleq : leap1 = leap2 := by rw [hl1, hl2, hyeq]
  have hm1le := monthFrom_fst_le 14 leap1 1 (yearFrom 9000 1970 n1).2
  have hm2le := monthFrom_fst_le 14 leap2 1 (yearFrom 9000 1970 n2).2
  have hmr1 := monthFrom_snd_lt 14 leap1 1 (yearFrom 9000 1970 n1).2 (by omega)
  have hmr2 := monthFrom_snd_lt 14 leap2 1 (yearFrom 9000 1970 n2).2 (by omega)
  have hml1 := monthLen_bounds leap1 (monthFrom 14 leap1 1 (yearFrom 9000 1970 n1).2).1
  have hml2 := monthLen_bounds leap2 (monthFrom 14 leap2 1 (yearFrom 9000 1970 n2).2).1
  have hmeq : (monthFrom 14 leap1 1 (yearFrom 9000 1970 n1).2).1
            = (monthFrom 14 leap2 1 (yearFrom 9000 1970 n2).2).1 := by omega
  have hdeq : (monthFrom 14 leap1 1 (yearFrom 9000 1970 n1).2).2
            = (monthFrom 14 leap2 1 (yearFrom 9000 1970 n2).2).2 := by omega
  -- recover the day-of-year offsets
  rw [hleq] at hmeq hdeq
  have hpair : monthFrom 14 leap2 1 (yearFrom 9000 1970 n1).2
             = monthFrom 14 leap2 1 (yearFrom 9000 1970 n2).2 :=
    Prod.ext hmeq hdeq
  have hroeq : (yearFrom 9000 1970 n1).2 = (yearFrom 9000 1970 n2).2 := by
    rcases le_total ((yearFrom 9000 1970 n1).2) ((yearFrom 9000 1970 n2).2) with hc | hc
    · exact monthFrom_inj 14 leap2 1 _ _ hc (by omega) hpair
    · exact (monthFrom_inj 14 leap2 1 _ _ hc (by omega) hpair.symm).symm
  have hypair : yearFrom 9000 1970 n1 = yearFrom 9000 1970 n2 := Prod.ext hyeq hroeq
  have : n1 = n2 := by
    rcases le_total n1 n2 with hc | hc
    · exact yearFrom_inj 9000 1970 _ _ hc (by omega) hypair
    · exact (yearFrom_inj 9000 1970 _ _ hc (by omega) hypair.symm).symm
  omega

/-! ### Lemmas: the outer exception handler -/

theorem translateExc_ok {r : Except PyExc (List Event)} {evs : List Event}
    (h : translateExc r = .ok evs) : r = .ok evs := by
  cases r with
  | ok v => simpa [translateExc] using h
  | error e => cases e <;> simp [translateExc] at h

/-! ### Lemmas: the bucketing loop -/

theorem checkSample_ok {s : Sample} {x : Extracted} (h : checkSample s = .ok x) :
    x = extractOf s ∧ -62135596800 ≤ s.dt ∧ s.dt ≤ 253402300799 := by
  unfold checkSample at h
  split at h
  · exact absurd h (by simp)
  · constructor
    · split at h
      · exact absurd h (by simp)
      · exact (Except.ok.inj h).symm
    · omega

theorem checkSamples_keys : ∀ {l : List Sample} {checked : List (Int × Extracted)},
    checkSamples l = .ok checked →
    checked.map (fun p => p.1) = (validSamples l).map sampleDay := by
  intro l
  induction l with
  | nil =>
    intro checked h
    simp only [checkSamples] at h
    have h2 := Except.ok.inj h
    simp [← h2, validSamples]
  | cons s rest ih =>
    intro checked h
    simp only [checkSamples] at h
    by_cases hdt : s.dt = 0
    · rw [if_pos hdt] at h
      have hrec := ih h
      simp only [validSamples, List.filter_cons] at hrec ⊢
      have hb : (s.dt != 0) = false := by simp [hdt]
      rw [hb]
      simpa using hrec
    · rw [if_neg hdt] at h
      cases hcs : checkSample s with
      | error e => rw [hcs] at h; exact absurd h (by simp)
      | ok x =>
        rw [hcs] at h
        cases hrest : checkSamples rest with
        | error e => rw [hrest] at h; exact absurd h (by simp)
        | ok l2 =>
          rw [hrest] at h
          have hc := Except.ok.inj h
          subst hc
          have hrec := ih hrest
          simp only [validSamples, List.filter_cons] at hrec ⊢
          have hb : (s.dt != 0) = true := by simp [hdt]
          rw [hb]
          simp [hrec]

theorem checkSamples_bucket : ∀ {l : List Sample} {checked : List (Int × Extracted)},
    checkSamples l = .ok checked → ∀ z : Int,
    (checked.filter (fun p => p.1 = z)).map (fun p => p.2) =
      (bucketSamples l z).map extractOf := by
  intro l
  induction l with
  | nil =>
    intro checked h z
    simp only [checkSamples] at h
    have h2 := Except.ok.inj h
    simp [← h2, bucketSamples, validSamples]
  | cons s rest ih =>
    intro checked h z
    simp only [checkSamples] at h
    by_cases hdt : s.dt = 0
    · rw [if_pos hdt] at h
      have hrec := ih h z
      simp only [bucketSamples, validSamples, List.filter_cons] at hrec ⊢
      have hb : (s.dt != 0) = false := by simp [hdt]
      rw [hb]
      simpa using hrec
    · rw [if_neg hdt] at h
      cases hcs : checkSample s with
      | error e => rw [hcs] at h; exact absurd h (by simp)
      | ok x =>
        rw [hcs] at h
        cases hrest : checkSamples rest with
        | error e => rw [hrest] at h; exact absurd h (by simp)
        | ok l2 =>
          rw [hrest] at h
          have hc := Except.ok.inj h
          subst hc
          have hx := (checkSample_ok hcs).1
          have hrec := ih hrest z
          simp only [bucketSamples, validSamples, List.filter_cons] at hrec ⊢
          have hb : (s.dt != 0) = true := by simp [hdt]
          rw [hb]
          by_cases hz : sampleDay s = z
          · have hz2 : (decide (sampleDay s = z)) = true := by simp [hz]
            rw [hx]
            simp [hrec, List.filter_cons, hz2, List.filter_filter]
          · have hz2 : (decide (sampleDay s = z)) = false := by simp [hz]
            simp [hrec, List.filter_cons, hz2, List.filter_filter]

theorem checkSamples_range : ∀ {l : List Sample} {checked : List (Int × Extracted)},
    checkSamples l = .ok checked →
    ∀ s ∈ l, s.dt ≠ 0 → -62135596800 ≤ s.dt ∧ s.dt ≤ 253402300799 := by
  intro l
  induction l with
  | nil => intro checked _ s hs; exact absurd hs (by simp)
  | cons t rest ih =>
    intro checked h s hs hdt0
    simp only [checkSamples] at h
    rcases List.mem_cons.mp hs with heq | hmem
    · subst heq
      rw [if_neg hdt0] at h
      cases hcs : checkSample s with
      | error e => rw [hcs] at h; exact absurd h (by simp)
      | ok x => exact (checkSample_ok hcs).2
    · by_cases hdt : t.dt = 0
      · rw [if_pos hdt] at h
        exact ih h s hmem hdt0
      · rw [if_neg hdt] at h
        cases hcs : checkSample t with
        | error e => rw [hcs] at h; exact absurd h (by simp)
        | ok x =>
          rw [hcs] at h
          cases hrest : checkSamples rest with
          | error e => rw [hrest] at h; exact absurd h (by simp)
          | ok l2 => exact ih hrest s hmem hdt0

/-! ### Lemmas: the assembled pipeline -/

theorem fetch_events_eq_pipeline {location : String} {api_key : Option String} {days : Int}
    {units : String} {env_api_key : Option String} {k : String}
    {geocode : GeoParams → HttpResp GeoBody} {forecast : ForecastParams → HttpResp ForeBody}
    (hl : pyStrip location ≠ "") (hk : resolveApiKey api_key env_api_key = some k) :
    fetch_events location api_key days units env_api_key geocode forecast =
      translateExc (pipelineWithKey location days units k geocode forecast) := by
  unfold fetch_events fetch_events_body
  rw [if_neg hl, hk]

theorem pipelineWithKey_geo_error {location : String} {days : Int} {units k : String}
    {geocode : GeoParams → HttpResp GeoBody} {forecast : ForecastParams → HttpResp ForeBody}
    {e : PyExc}
    (hg : geocodeStage (geocode ⟨pyStrip location, 1, k⟩) (pyStrip location) = .error e) :
    pipelineWithKey location days units k geocode forecast = .error e := by
  unfold pipelineWithKey
  dsimp only
  rw [hg]

theorem pipelineWithKey_fore_error {location : String} {days : Int} {units k : String}
    {geocode : GeoParams → HttpResp GeoBody} {forecast : ForecastParams → HttpResp ForeBody}
    {lat lon : ℚ} {location_display : String} {e : PyExc}
    (hg : geocodeStage (geocode ⟨pyStrip location, 1, k⟩) (pyStrip location) =
      .ok (lat, lon, location_display))
    (hf : forecastStage (forecast ⟨lat, lon, normUnits units, k⟩) = .error e) :
    pipelineWithKey location days units k geocode forecast = .error e := by
  unfold pipelineWithKey
  dsimp only
  rw [hg]
  dsimp only
  rw [hf]

theorem pipelineWithKey_ok_shape {location : String} {days : Int} {units k : String}
    {geocode : GeoParams → HttpResp GeoBody} {forecast : ForecastParams → HttpResp ForeBody}
    {lat lon : ℚ} {location_display : String} {samples : List Sample}
    (hg : geocodeStage (geocode ⟨pyStrip location, 1, k⟩) (pyStrip location) =
      .ok (lat, lon, location_display))
    (hf : forecastStage (forecast ⟨lat, lon, normUnits units, k⟩) = .ok samples) :
    pipelineWithKey location days units k geocode forecast =
      aggregateEvents (clampDays days) (normUnits units) location_display samples := by
  unfold pipelineWithKey
  dsimp only
  rw [hg]
  dsimp only
  rw [hf]

theorem aggregateEvents_ok {days : Int} {units location_display : String} {samples : List Sample}
    {checked : List (Int × Extracted)} (hc : checkSamples samples = .ok checked) :
    aggregateEvents days units location_display samples =
      .ok (((sortInts (checked.map (fun p => p.1)).dedup).take days.toNat).map
        (fun z => buildEvent units location_display z
          ((checked.filter (fun p => p.1 = z)).map (fun p => p.2)))) := by
  unfold aggregateEvents
  rw [hc]

theorem fetch_events_ok {location : String} {api_key : Option String} {days : Int} {units : String}
    {env_api_key : Option String} {geocode : GeoParams → HttpResp GeoBody}
    {forecast : ForecastParams → HttpResp ForeBody} {evs : List Event}
    (h : fetch_events location api_key days units env_api_key geocode forecast = .ok evs) :
    ∃ (k : String) (lat lon : ℚ) (location_display : String) (samples : List Sample)
      (checked : List (Int × Extracted)),
      resolveApiKey api_key env_api_key = some k ∧
      geocodeStage (geocode ⟨pyStrip location, 1, k⟩) (pyStrip location) =
        .ok (lat, lon, location_display) ∧
      forecastStage (forecast ⟨lat, lon, normUnits units, k⟩) = .ok samples ∧
      checkSamples samples = .ok checked ∧
      evs = ((sortInts (checked.map (fun p => p.1)).dedup).take (clampDays days).toNat).map
        (fun z => buildEvent (normUnits units) location_display z
          ((checked.filter (fun p => p.1 = z)).map (fun p => p.2))) := by
  have hb := translateExc_ok h
  unfold fetch_events_body at hb
  split at hb
  · exact absurd hb (by simp)
  · cases hk : resolveApiKey api_key env_api_key with
    | none => rw [hk] at hb; exact absurd hb (by simp)
    | some k =>
      rw [hk] at hb
      unfold pipelineWithKey at hb
      dsimp only at hb
      cases hg : geocodeStage (geocode ⟨pyStrip location, 1, k⟩) (pyStrip location) with
      | error e => rw [hg] at hb; exact absurd hb (by simp)
      | ok trip =>
        obtain ⟨lat, lon, location_display⟩ := trip
        rw [hg] at hb
        dsimp only at hb
        cases hf : forecastStage (forecast ⟨lat, lon, normUnits units, k⟩) with
        | error e => rw [hf] at hb; exact absurd hb (by simp)
        | ok samples =>
          rw [hf] at hb
          dsimp only at hb
          unfold aggregateEvents at hb
          cases hc : checkSamples samples with
          | error e => rw [hc] at hb; exact absurd hb (by simp)
          | ok checked =>
            rw [hc] at hb
            dsimp only at hb
            exact ⟨k, lat, lon, location_display, samples, checked, rfl, hg, hf, hc,
              (Except.ok.inj hb).symm⟩

/-! ### Lemmas: sorting and Python min, max, average -/

theorem sortInts_sorted (l : List Int) : List.Sorted (· ≤ ·) (sortInts l) :=
  List.sorted_insertionSort (· ≤ ·) l

theorem sortInts_length (l : List Int) : (sortInts l).length = l.length :=
  (List.perm_insertionSort (· ≤ ·) l).length_eq

theorem foldl_min_le_init (xs : List ℚ) : ∀ a : ℚ, xs.foldl min a ≤ a := by
  induction xs with
  | nil => intro a; simp
  | cons x rest ih =>
    intro a
    simp only [List.foldl_cons]
    exact le_trans (ih (min a x)) (min_le_left a x)

theorem foldl_min_le_mem (xs : List ℚ) : ∀ a : ℚ, ∀ t ∈ xs, xs.foldl min a ≤ t := by
  induction xs with
  | nil => intro a t ht; exact absurd ht (by simp)
  | cons x rest ih =>
    intro a t ht
    simp only [List.foldl_cons]
    rcases List.mem_cons.mp ht with heq | hmem
    · subst heq
      exact le_trans (foldl_min_le_init rest (min a t)) (min_le_right a t)
    · exact ih (min a x) t hmem

theorem foldl_min_mem (xs : List ℚ) : ∀ a : ℚ, xs.foldl min a = a ∨ xs.foldl min a ∈ xs := by
  induction xs with
  | nil => intro a; simp
  | cons x rest ih =>
    intro a
    simp only [List.foldl_cons]
    rcases ih (min a x) with h | h
    · rcases min_choice a x with hc | hc
      · left; rw [h, hc]
      · right; rw [h, hc]; exact List.mem_cons_self x rest
    · right; exact List.mem_cons_of_mem x h

theorem pyMin_spec (l : List ℚ) (h : l ≠ []) : pyMin l ∈ l ∧ ∀ t ∈ l, pyMin l ≤ t := by
  match l with
  | [] => exact absurd rfl h
  | x :: xs =>
    simp only [pyMin]
    constructor
    · rcases foldl_min_mem xs x with h1 | h1
      · rw [h1]; exact List.mem_cons_self x xs
      · exact List.mem_cons_of_mem x h1
    · intro t ht
      rcases List.mem_cons.mp ht with heq | hmem
      · subst heq; exact foldl_min_le_init xs t
      · exact foldl_min_le_mem xs x t hmem

theorem foldl_max_ge_init (xs : List ℚ) : ∀ a : ℚ, a ≤ xs.foldl max a := by
  induction xs with
  | nil => intro a; simp
  | cons x rest ih =>
    intro a
    simp only [List.foldl_cons]
    exact le_trans (le_max_left a x) (ih (max a x))

theorem foldl_max_ge_mem (xs : List ℚ) : ∀ a : ℚ, ∀ t ∈ xs, t ≤ xs.foldl max a := by
  induction xs with
  | nil => intro a t ht; exact absurd ht (by simp)
  | cons x rest ih =>
    intro a t ht
    simp only [List.foldl_cons]
    rcases List.mem_cons.mp ht with heq | hmem
    · subst heq
      exact le_trans (le_max_right a t) (foldl_max_ge_init rest (max a t))
    · exact ih (max a x) t hmem

theorem foldl_max_mem (xs : List ℚ) : ∀ a : ℚ, xs.foldl max a = a ∨ xs.foldl max a ∈ xs := by
  induction xs with
  | nil => intro a; simp
  | cons x rest ih =>
    intro a
    simp only [List.foldl_cons]
    rcases ih (max a x) with h | h
    · rcases max_choice a x with hc | hc
      · left; rw [h, hc]
      · right; rw [h, hc]; exact List.mem_cons_self x rest
    · right; exact List.mem_cons_of_mem x h

theorem pyMax_spec (l : List ℚ) (h : l ≠ []) : pyMax l ∈ l ∧ ∀ t ∈ l, t ≤ pyMax l := by
  match l with
  | [] => exact absurd rfl h
  | x :: xs =>
    simp only [pyMax]
    constructor
    · rcases foldl_max_mem xs x with h1 | h1
      · rw [h1]; exact List.mem_cons_self x xs
      · exact List.mem_cons_of_mem x h1
    · intro t ht
      rcases List.mem_cons.mp ht with heq | hmem
      · subst heq; exact foldl_max_ge_init xs t
      · exact foldl_max_ge_mem xs x t hmem

theorem pyAvg_pos (l : List ℚ) (hpos : ∀ t ∈ l, 0 < t) (hne : l ≠ []) : 0 < pyAvg l := by
  unfold pyAvg
  rw [if_neg hne]
  apply div_pos (List.sum_pos l hpos hne)
  have : 0 < l.length := List.length_pos.mpr hne
  exact_mod_cast this

theorem pyAvg_nil : pyAvg [] = 0 := rfl

/-! ### Lemmas: buildEvent projections and bucket conversions -/

theorem buildEvent_start (units location_display : String) (z : Int) (xs : List Extracted) :
    (buildEvent units location_display z xs).start = z := rfl

theorem buildEvent_end (units location_display : String) (z : Int) (xs : List Extracted) :
    (buildEvent units location_display z xs).end_ = z + 1 := rfl

theorem buildEvent_location (units location_display : String) (z : Int) (xs : List Extracted) :
    (buildEvent units location_display z xs).location = location_display := rfl

theorem buildEvent_uid (units location_display : String) (z : Int) (xs : List Extracted) :
    (buildEvent units location_display z xs).uid =
      "weather-" ++ make_slug location_display ++ "-" ++ dateStr z := rfl

theorem dayExtracts_temp (samples : List Sample) (z : Int) :
    (dayExtracts samples z).map (fun x => x.temp) = dayTemps samples z := by
  unfold dayExtracts dayTemps
  rw [List.map_map]
  rfl

theorem dayExtracts_wind_deg (samples : List Sample) (z : Int) :
    (dayExtracts samples z).map (fun x => x.wind_deg) = dayWindDegs samples z := by
  unfold dayExtracts dayWindDegs
  rw [List.map_map]
  rfl

theorem forecastStage_ok_eq {st : Int} {c : Option JPrim} {m : Option String}
    {l l' : List Sample}
    (h : forecastStage (.response st (some (.jdict c m (some l)))) = .ok l') : l' = l := by
  unfold forecastStage at h
  dsimp only at h
  by_cases h1 : st = 401
  · rw [if_pos h1] at h; exact absurd h (by simp)
  · rw [if_neg h1] at h
    by_cases h2 : st = 429
    · rw [if_pos h2] at h; exact absurd h (by simp)
    · rw [if_neg h2] at h
      cases hbe : bodyErrorCheck c m with
      | some e => rw [hbe] at h; exact absurd h (by simp)
      | none =>
        rw [hbe] at h
        dsimp only at h
        cases hrs : raise_for_status st with
        | some me => rw [hrs] at h; exact absurd h (by simp)
        | none =>
          rw [hrs] at h
          dsimp only at h
          exact (Except.ok.inj h).symm

/-! ### C7: failure modes of fetch_events -/

/-- C7: fetch_events fails in exactly one of three ways.  An HTTPException
raised inside the body propagates unchanged; a RequestException (network
error, timeout, or a raise_for_status error) is reported as a 502 gateway
error; any other exception is reported as a 500 internal error carrying the
original message; and every reported error is of one of these three shapes.
A transport failure of the geocoding request is reported as the 502 gateway
error with the message of the transport exception. -/
theorem fetch_events_failure_modes (location : String) (api_key : Option String) (days : Int)
    (units : String) (env_api_key : Option String) (geocode : GeoParams → HttpResp GeoBody)
    (forecast : ForecastParams → HttpResp ForeBody) :
    (∀ evs, fetch_events_body location api_key days units env_api_key geocode forecast = .ok evs →
      fetch_events location api_key days units env_api_key geocode forecast = .ok evs) ∧
    (∀ e, fetch_events_body location api_key days units env_api_key geocode forecast =
        .error (.httpExc e) →
      fetch_events location api_key days units env_api_key geocode forecast = .error e) ∧
    (∀ m, fetch_events_body location api_key days units env_api_key geocode forecast =
        .error (.reqExc m) →
      fetch_events location api_key days units env_api_key geocode forecast =
        .error ⟨502, "Weather API request failed: " ++ m⟩) ∧
    (∀ m, fetch_events_body location api_key days units env_api_key geocode forecast =
        .error (.otherExc m) →
      fetch_events location api_key days units env_api_key geocode forecast =
        .error ⟨500, "Failed to fetch weather events: " ++ m⟩) ∧
    (∀ e, fetch_events location api_key days units env_api_key geocode forecast = .error e →
      fetch_events_body location api_key days units env_api_key geocode forecast =
          .error (.httpExc e) ∨
      (∃ m, fetch_events_body location api_key days units env_api_key geocode forecast =
          .error (.reqExc m) ∧ e = ⟨502, "Weather API request failed: " ++ m⟩) ∨
      (∃ m, fetch_events_body location api_key days units env_api_key geocode forecast =
          .error (.otherExc m) ∧ e = ⟨500, "Failed to fetch weather events: " ++ m⟩)) ∧
    (∀ m k, pyStrip location ≠ "" → resolveApiKey api_key env_api_key = some k →
      geocode ⟨pyStrip location, 1, k⟩ = .transportErr m →
      fetch_events location api_key days units env_api_key geocode forecast =
        .error ⟨502, "Weather API request failed: " ++ m⟩) := by
  refine ⟨?_, ?_, ?_, ?_, ?_, ?_⟩
  · intro evs h
    unfold fetch_events
    rw [h]
    rfl
  · intro e h
    unfold fetch_events
    rw [h]
    rfl
  · intro m h
    unfold fetch_events
    rw [h]
    rfl
  · intro m h
    unfold fetch_events
    rw [h]
    rfl
  · intro e h
    unfold fetch_events at h
    cases hb : fetch_events_body location api_key days units env_api_key geocode forecast with
    | ok v => rw [hb] at h; exact absurd h (by simp [translateExc])
    | error pe =>
      rw [hb] at h
      cases pe with
      | httpExc e2 =>
        left
        simp only [translateExc] at h
        rw [Except.error.inj h]
      | reqExc m =>
        right; left
        exact ⟨m, rfl, (Except.error.inj h).symm⟩
      | otherExc m =>
        right; right
        exact ⟨m, rfl, (Except.error.inj h).symm⟩
  · intro m k hl hk hge
    rw [fetch_events_eq_pipeline hl hk,
      pipelineWithKey_geo_error (e := .reqExc m) (by rw [hge]; rfl)]
    rfl

/-- Witness for C7: a concrete geocoding timeout is reported as the 502
gateway error. -/
theorem fetch_events_failure_modes_witness :
    fetch_events "London" (some "k") 5 "metric" none (fun _ => .transportErr "timeout")
      (exFore []) = .error ⟨502, "Weather API request failed: timeout"⟩ :=
  (fetch_events_failure_modes "London" (some "k") 5 "metric" none
    (fun _ => .transportErr "timeout") (exFore [])).2.2.2.2.2 "timeout" "k"
    (by decide) (by decide) rfl

/-! ### C2: embedded auth and rate-limit error codes under HTTP 200 -/

/-- C2: a geocoding body whose cod field is the string 401 with message
Invalid key fails as 401 with detail Invalid key, even under HTTP 200;
symmetrically a cod of 429 fails as 429 carrying its message. -/
theorem fetch_events_geocode_embedded_auth_errors (location : String) (api_key : Option String)
    (days : Int) (units : String) (env_api_key : Option String) (k msg : String)
    (extra1 extra2 : Bool) (forecast : ForecastParams → HttpResp ForeBody)
    (hl : pyStrip location ≠ "") (hk : resolveApiKey api_key env_api_key = some k) :
    fetch_events location api_key days units env_api_key
      (fun _ => .response 200 (some (.jdict (some (.jstr "401")) (some "Invalid key") extra1)))
      forecast = .error ⟨401, "Invalid key"⟩ ∧
    fetch_events location api_key days units env_api_key
      (fun _ => .response 200 (some (.jdict (some (.jstr "429")) (some msg) extra2)))
      forecast = .error ⟨429, msg⟩ := by
  constructor
  · have hgeo : geocodeStage
        (.response 200 (some (.jdict (some (.jstr "401")) (some "Invalid key") extra1)))
        (pyStrip location) = .error (.httpExc ⟨401, "Invalid key"⟩) := by
      unfold geocodeStage
      dsimp only
      rw [if_neg (by decide), if_neg (by decide)]
      have hbe : bodyErrorCheck (some (.jstr "401")) (some "Invalid key") =
          some (.httpExc ⟨401, "Invalid key"⟩) := by
        unfold bodyErrorCheck
        rw [if_pos rfl]
        rfl
      rw [hbe]
    rw [fetch_events_eq_pipeline hl hk, pipelineWithKey_geo_error hgeo]
    rfl
  · have hgeo : geocodeStage
        (.response 200 (some (.jdict (some (.jstr "429")) (some msg) extra2)))
        (pyStrip location) = .error (.httpExc ⟨429, msg⟩) := by
      unfold geocodeStage
      dsimp only
      rw [if_neg (by decide), if_neg (by decide)]
      have hbe : bodyErrorCheck (some (.jstr "429")) (some msg) =
          some (.httpExc ⟨429, msg⟩) := by
        unfold bodyErrorCheck
        rw [if_neg (by decide), if_pos rfl]
        rfl
      rw [hbe]
    rw [fetch_events_eq_pipeline hl hk, pipelineWithKey_geo_error hgeo]
    rfl

/-- Witness for C2 at a concrete call. -/
theorem fetch_events_geocode_embedded_auth_errors_witness :
    fetch_events "London" (some "k") 5 "metric" none
      (fun _ => .response 200 (some (.jdict (some (.jstr "401")) (some "Invalid key") false)))
      (exFore []) = .error ⟨401, "Invalid key"⟩ :=
  (fetch_events_geocode_embedded_auth_errors "London" (some "k") 5 "metric" none "k"
    "limited" false false (exFore []) (by decide) (by decide)).1

/-! ### C4: units normalization -/

/-- Counterexample to C4 as stated: the argument IMPERIAL is not in the set
of the three exact unit strings, yet the call does not behave like metric
(the two results differ, because lower-casing happens before the
membership test). -/
theorem fetch_events_units_uppercase_counterexample :
    ("IMPERIAL" ∉ ["metric", "imperial", "kelvin"]) ∧
    fetch_events "London" (some "k") 5 "IMPERIAL" none exGeo (exFore [exSample]) ≠
      fetch_events "London" (some "k") 5 "metric" none exGeo (exFore [exSample]) := by
  constructor
  · decide
  · with_unfolding_all decide

/-- C4 amended: for every units argument whose lower-cased value is not
one of metric, imperial, kelvin, the call behaves exactly as with units
metric - equal results for every input and every pair of oracles. -/
theorem fetch_events_units_default_metric (location : String) (api_key : Option String)
    (days : Int) (units : String) (env_api_key : Option String)
    (geocode : GeoParams → HttpResp GeoBody) (forecast : ForecastParams → HttpResp ForeBody)
    (h1 : pyLower units ≠ "metric") (h2 : pyLower units ≠ "imperial")
    (h3 : pyLower units ≠ "kelvin") :
    fetch_events location api_key days units env_api_key geocode forecast =
      fetch_events location api_key days "metric" env_api_key geocode forecast := by
  have hnorm : normUnits units = normUnits "metric" := by
    unfold normUnits
    dsimp only
    rw [if_neg (by rw [not_or, not_or]; exact ⟨h1, h2, h3⟩)]
    rfl
  unfold fetch_events fetch_events_body
  split
  · rfl
  · cases resolveApiKey api_key env_api_key with
    | none => rfl
    | some k =>
      unfold pipelineWithKey
      dsimp only
      rw [hnorm]

/-- Witness for the amended C4: units celsius behaves as metric. -/
theorem fetch_events_units_default_metric_witness :
    fetch_events "London" (some "k") 5 "celsius" none exGeo (exFore [exSample]) =
      fetch_events "London" (some "k") 5 "metric" none exGeo (exFore [exSample]) :=
  fetch_events_units_default_metric "London" (some "k") 5 "celsius" none exGeo
    (exFore [exSample]) (by decide) (by decide) (by decide)

/-! ### C9: api key resolution -/

/-- Counterexample to C9 as stated: with a blank location, a blank api_key
and a blank environment value, the call fails with the 400 missing-location
error, not with the 500 configuration error the claim asserts - the
location check precedes key resolution. -/
theorem fetch_events_blank_location_counterexample :
    fetch_events "" none 5 "metric" none exGeo (exFore []) =
      .error ⟨400, "Location is required"⟩ ∧
    (⟨400, "Location is required"⟩ : HTTPException) ≠ ⟨500, apiKeyNotConfiguredMsg⟩ := by
  constructor
  · decide
  · decide

/-- C9 amended: provided the location argument is non-blank, a blank
api_key argument makes the call behave exactly as if the environment value
had been passed as the argument; when the resolved key is absent the call
fails with the 500 configuration error for every pair of oracles, so before
any outbound request; and the resolved key is the chosen source trimmed of
surrounding whitespace, passed on to the request pipeline. -/
theorem fetch_events_api_key_resolution (location : String) (a e : Option String) (days : Int)
    (units : String) (geocode : GeoParams → HttpResp GeoBody)
    (forecast : ForecastParams → HttpResp ForeBody) (hl : pyStrip location ≠ "") :
    (optBlank a = true →
      fetch_events location a days units e geocode forecast =
        fetch_events location e days units e geocode forecast) ∧
    (resolveApiKey a e = none →
      fetch_events location a days units e geocode forecast =
        .error ⟨500, apiKeyNotConfiguredMsg⟩) ∧
    (optBlank a = false → resolveApiKey a e = some (pyStrip (a.getD ""))) ∧
    (optBlank a = true → optBlank e = false → resolveApiKey a e = some (pyStrip (e.getD ""))) ∧
    (∀ k, resolveApiKey a e = some k →
      fetch_events location a days units e geocode forecast =
        translateExc (pipelineWithKey location days units k geocode forecast)) := by
  refine ⟨?_, ?_, ?_, ?_, ?_⟩
  · intro hba
    have hres : resolveApiKey a e = resolveApiKey e e := by
      unfold resolveApiKey
      rw [hba]
      simp
    unfold fetch_events fetch_events_body
    rw [hres]
  · intro hres
    unfold fetch_events fetch_events_body
    rw [if_neg hl, hres]
    rfl
  · intro hba
    unfold resolveApiKey
    rw [hba]
    simp [hba]
  · intro hba hbe
    unfold resolveApiKey
    rw [hba]
    simp [hbe]
  · intro k hk
    exact fetch_events_eq_pipeline hl hk

/-- Witness for the amended C9: with no key argument and no environment
value, a concrete call fails with the configuration error. -/
theorem fetch_events_api_key_resolution_witness :
    fetch_events "London" none 5 "metric" none exGeo (exFore []) =
      .error ⟨500, apiKeyNotConfiguredMsg⟩ :=
  (fetch_events_api_key_resolution "London" none none 5 "metric" exGeo (exFore [])
    (by decide)).2.1 rfl

/-! ### C3: mapped status codes from the cod field -/

theorem codToInt_error {cod : Option JPrim} {e : PyExc} (h : codToInt cod = .error e) :
    ∃ s, e = .otherExc ("invalid literal for int() with base 10: '" ++ s ++ "'") := by
  match cod with
  | none => exact absurd h (by simp [codToInt])
  | some (.jint n) => exact absurd h (by simp [codToInt])
  | some (.jstr s) =>
    unfold codToInt at h
    dsimp only at h
    cases hp : parseIntPy s with
    | some n => rw [hp] at h; exact absurd h (by simp)
    | none =>
      rw [hp] at h
      exact ⟨s, (Except.error.inj h).symm⟩

theorem bodyErrorCheck_mapped {c : JPrim} {m : String}
    (hc1 : c ≠ .jstr "401") (hc2 : c ≠ .jstr "429") (hc3 : c ≠ .jstr "200") :
    bodyErrorCheck (some c) (some m) =
      (match codToInt (some c) with
       | .ok n => some (.httpExc ⟨n, "Weather API error: " ++ m⟩)
       | .error e => some e) := by
  unfold bodyErrorCheck
  rw [if_neg (by simpa using hc1), if_neg (by simpa using hc2),
    if_pos ⟨by simp, by simpa using hc3⟩]
  rfl

theorem geocodeStage_dict_err {st : Int} {c : Option JPrim} {m : Option String} {extra : Bool}
    {loc : String} {exc : PyExc} (h1 : st ≠ 401) (h2 : st ≠ 429)
    (hbe : bodyErrorCheck c m = some exc) :
    geocodeStage (.response st (some (.jdict c m extra))) loc = .error exc := by
  unfold geocodeStage
  dsimp only
  rw [if_neg h1, if_neg h2, hbe]

theorem forecastStage_dict_err {st : Int} {c : Option JPrim} {m : Option String}
    {lst : Option (List Sample)} {exc : PyExc} (h1 : st ≠ 401) (h2 : st ≠ 429)
    (hbe : bodyErrorCheck c m = some exc) :
    forecastStage (.response st (some (.jdict c m lst))) = .error exc := by
  unfold forecastStage
  dsimp only
  rw [if_neg h1, if_neg h2, hbe]

theorem geocodeStage_list_ok {lat lon : ℚ} {name : String} {rest : List GeoEntry}
    {loc : String} :
    geocodeStage (.response 200 (some (.jlist
      ({ lat := some lat, lon := some lon, name := some name, country := none } :: rest)))) loc =
      .ok (lat, lon, name) := by
  unfold geocodeStage
  dsimp only
  rw [if_neg (by decide), if_neg (by decide)]
  have hrs : raise_for_status 200 = none := by decide
  rw [hrs]
  dsimp only
  rw [if_neg (by simp [geoFalsy])]
  rfl

/-- Counterexample to C3 as stated: a geocoding dict body carrying cod 404
but no message field does not produce the 404 the claim asserts; the source
only maps the cod field when a message field is present, and this body
instead falls through to dict subscripting, which raises KeyError(0) and is
reported as a generic 500. -/
theorem fetch_events_cod_without_message_counterexample :
    fetch_events "London" (some "k") 5 "metric" none
      (fun _ => .response 200 (some (.jdict (some (.jstr "404")) none false)))
      (exFore []) = .error ⟨500, "Failed to fetch weather events: 0"⟩ ∧
    (500 : Int) ≠ 404 := by
  constructor
  · decide
  · decide

/-- C3 amended: for every geocoding or forecast JSON dict body whose cod
field is present and not 200 (and not the 401 or 429 cases) and whose
message field is also present, the call fails with status the integer value
of the cod field; when that field cannot be parsed as an integer the
resulting status is 500 (via the generic internal-error path). -/
theorem fetch_events_cod_mapped_status (location : String) (api_key : Option String)
    (days : Int) (units : String) (env_api_key : Option String) (k : String) (status : Int)
    (c : JPrim) (m : String) (extra : Bool) (lat0 lon0 : ℚ) (name0 : String)
    (forecast : ForecastParams → HttpResp ForeBody)
    (hl : pyStrip location ≠ "") (hk : resolveApiKey api_key env_api_key = some k)
    (hs1 : status ≠ 401) (hs2 : status ≠ 429)
    (hc1 : c ≠ .jstr "401") (hc2 : c ≠ .jstr "429") (hc3 : c ≠ .jstr "200") :
    (∀ n, codToInt (some c) = .ok n →
      fetch_events location api_key days units env_api_key
        (fun _ => .response status (some (.jdict (some c) (some m) extra))) forecast =
        .error ⟨n, "Weather API error: " ++ m⟩) ∧
    (∀ e, codToInt (some c) = .error e →
      ∃ d, fetch_events location api_key days units env_api_key
        (fun _ => .response status (some (.jdict (some c) (some m) extra))) forecast =
        .error ⟨500, d⟩) ∧
    (∀ n, codToInt (some c) = .ok n →
      fetch_events location api_key days units env_api_key
        (fun _ => .response 200 (some (.jlist
          [{ lat := some lat0, lon := some lon0, name := some name0, country := none }])))
        (fun _ => .response status (some (.jdict (some c) (some m) none))) =
        .error ⟨n, "Weather API error: " ++ m⟩) ∧
    (∀ e, codToInt (some c) = .error e →
      ∃ d, fetch_events location api_key days units env_api_key
        (fun _ => .response 200 (some (.jlist
          [{ lat := some lat0, lon := some lon0, name := some name0, country := none }])))
        (fun _ => .response status (some (.jdict (some c) (some m) none))) =
        .error ⟨500, d⟩) := by
  have hbe := bodyErrorCheck_mapped (m := m) hc1 hc2 hc3
  refine ⟨?_, ?_, ?_, ?_⟩
  · intro n hcod
    rw [hcod] at hbe
    rw [fetch_events_eq_pipeline hl hk,
      pipelineWithKey_geo_error (geocodeStage_dict_err hs1 hs2 hbe)]
    rfl
  · intro e hcod
    rw [hcod] at hbe
    obtain ⟨s, hs⟩ := codToInt_error hcod
    subst hs
    dsimp only at hbe
    refine ⟨"Failed to fetch weather events: " ++
      ("invalid literal for int() with base 10: '" ++ s ++ "'"), ?_⟩
    rw [fetch_events_eq_pipeline hl hk,
      pipelineWithKey_geo_error (geocodeStage_dict_err hs1 hs2 hbe)]
    rfl
  · intro n hcod
    rw [hcod] at hbe
    rw [fetch_events_eq_pipeline hl hk,
      pipelineWithKey_fore_error geocodeStage_list_ok
        (forecastStage_dict_err hs1 hs2 hbe)]
    rfl
  · intro e hcod
    rw [hcod] at hbe
    obtain ⟨s, hs⟩ := codToInt_error hcod
    subst hs
    dsimp only at hbe
    refine ⟨"Failed to fetch weather events: " ++
      ("invalid literal for int() with base 10: '" ++ s ++ "'"), ?_⟩
    rw [fetch_events_eq_pipeline hl hk,
      pipelineWithKey_fore_error geocodeStage_list_ok
        (forecastStage_dict_err hs1 hs2 hbe)]
    rfl

/-- Witness for the amended C3: a geocoding body with cod 404 and a message
fails as a 404 carrying the message. -/
theorem fetch_events_cod_mapped_status_witness :
    fetch_events "London" (some "k") 5 "metric" none
      (fun _ => .response 200 (some (.jdict (some (.jstr "404")) (some "city not found") false)))
      (exFore []) = .error ⟨404, "Weather API error: city not found"⟩ :=
  (fetch_events_cod_mapped_status "London" (some "k") 5 "metric" none "k" 200
    (.jstr "404") "city not found" false 0 0 "London" (exFore []) (by decide) (by decide)
    (by decide) (by decide) (by decide) (by decide) (by decide)).1 404 (by decide)

/-! ### C1: event count bound and ordering -/

/-- Counterexample to C1 as stated: requesting days = 0 still returns one
event when one upstream day is present, exceeding min(0, 5, 1) = 0 - the
source clamps the requested days up to 1 instead of honoring 0. -/
theorem fetch_events_days_zero_counterexample :
    (fetch_events "London" (some "k") 0 "metric" none exGeo (exFore [exSample])).map
        List.length = .ok 1 ∧
    ¬ ((1 : Int) ≤ min 0 (min 5 (distinctDayCount [exSample] : Int))) := by
  constructor
  · with_unfolding_all decide
  · decide

/-- C1 amended: for every requested days value at least 1, the returned
event list has at most min(requested days, 5, number of distinct UTC day
keys among samples with nonzero timestamps) events, and is sorted ascending
by event start date. -/
theorem fetch_events_count_bound_and_sorted (location : String) (api_key : Option String)
    (days : Int) (units : String) (env_api_key : Option String)
    (geocode : GeoParams → HttpResp GeoBody) (fstatus : Int) (fcod : Option JPrim)
    (fmsg : Option String) (samples : List Sample) (evs : List Event)
    (hdays : 1 ≤ days)
    (h : fetch_events location api_key days units env_api_key geocode
      (fun _ => .response fstatus (some (.jdict fcod fmsg (some samples)))) = .ok evs) :
    (evs.length : Int) ≤ min days (min 5 (distinctDayCount samples : Int)) ∧
    List.Pairwise (· ≤ ·) (evs.map Event.start) := by
  obtain ⟨k, lat, lon, ld, samples', checked, hk, hg, hf, hc, hevs⟩ := fetch_events_ok h
  have hs : samples' = samples := forecastStage_ok_eq hf
  rw [hs] at hc
  have hkeys := checkSamples_keys hc
  have hlen : evs.length =
      min (clampDays days).toNat ((checked.map (fun p => p.1)).dedup.length) := by
    rw [hevs, List.length_map, List.length_take, sortInts_length]
  have hdc : ((checked.map (fun p => p.1)).dedup).length = distinctDayCount samples := by
    unfold distinctDayCount
    rw [hkeys]
  have hclamp : clampDays days = min days 5 := by
    unfold clampDays
    split_ifs <;> omega
  constructor
  · rw [hlen, hdc, hclamp]
    omega
  · have hsorted : List.Sorted (· ≤ ·)
        ((sortInts (checked.map (fun p => p.1)).dedup).take (clampDays days).toNat) :=
      List.Pairwise.sublist (List.take_sublist _ _) (sortInts_sorted _)
    have hmap : evs.map Event.start =
        (sortInts (checked.map (fun p => p.1)).dedup).take (clampDays days).toNat := by
      rw [hevs, List.map_map]
      have hfun : (Event.start ∘ fun z => buildEvent (normUnits units) ld z
          ((checked.filter (fun p => p.1 = z)).map (fun p => p.2))) = id := rfl
      rw [hfun, List.map_id]
    rw [hmap]
    exact hsorted

/-- Witness for the amended C1 at a concrete call with days = 3 and one
upstream day. -/
theorem fetch_events_count_bound_and_sorted_witness :
    (([buildEvent "metric" "London" 1 [extractOf exSample]].length : Int) ≤
      min 3 (min 5 (distinctDayCount [exSample] : Int))) ∧
    List.Pairwise (· ≤ ·)
      ([buildEvent "metric" "London" 1 [extractOf exSample]].map Event.start) :=
  fetch_events_count_bound_and_sorted "London" (some "k") 3 "metric" none exGeo 200 none none
    [exSample] [buildEvent "metric" "London" 1 [extractOf exSample]] (by decide)
    (by with_unfolding_all decide)

/-! ### Shape of the emitted events -/

theorem fetch_events_mem_build {location : String} {api_key : Option String} {days : Int}
    {units : String} {env_api_key : Option String} {geocode : GeoParams → HttpResp GeoBody}
    {forecast : ForecastParams → HttpResp ForeBody} {evs : List Event} {ev : Event}
    (h : fetch_events location api_key days units env_api_key geocode forecast = .ok evs)
    (hev : ev ∈ evs) :
    ∃ (ld : String) (z : Int) (xs : List Extracted),
      ev = buildEvent (normUnits units) ld z xs := by
  obtain ⟨k, lat, lon, ld, samples, checked, hk, hg, hf, hc, hevs⟩ := fetch_events_ok h
  rw [hevs] at hev
  obtain ⟨z, hz, hevq⟩ := List.mem_map.mp hev
  exact ⟨ld, z, _, hevq.symm⟩

theorem fetch_events_mem_shape {location : String} {api_key : Option String} {days : Int}
    {units : String} {env_api_key : Option String} {geocode : GeoParams → HttpResp GeoBody}
    {fstatus : Int} {fcod : Option JPrim} {fmsg : Option String} {samples : List Sample}
    {evs : List Event} {ev : Event}
    (h : fetch_events location api_key days units env_api_key geocode
      (fun _ => .response fstatus (some (.jdict fcod fmsg (some samples)))) = .ok evs)
    (hev : ev ∈ evs) :
    ∃ (ld : String) (z : Int),
      ev = buildEvent (normUnits units) ld z (dayExtracts samples z) ∧
      z ∈ (validSamples samples).map sampleDay ∧
      (∀ s ∈ samples, s.dt ≠ 0 → -62135596800 ≤ s.dt ∧ s.dt ≤ 253402300799) := by
  obtain ⟨k, lat, lon, ld, samples', checked, hk, hg, hf, hc, hevs⟩ := fetch_events_ok h
  have hs : samples' = samples := forecastStage_ok_eq hf
  rw [hs] at hc
  rw [hevs] at hev
  obtain ⟨z, hz, hevq⟩ := List.mem_map.mp hev
  have hbucket := checkSamples_bucket hc z
  refine ⟨ld, z, ?_, ?_, checkSamples_range hc⟩
  · rw [← hevq, hbucket]
    rfl
  · have h1 : z ∈ sortInts (checked.map (fun p => p.1)).dedup :=
      List.take_subset _ _ hz
    have h2 : z ∈ (checked.map (fun p => p.1)).dedup :=
      ((List.perm_insertionSort (· ≤ ·) ((checked.map (fun p => p.1)).dedup)).mem_iff).mp h1
    have h3 : z ∈ checked.map (fun p => p.1) := List.mem_dedup.mp h2
    rw [checkSamples_keys hc] at h3
    exact h3

/-! ### C5: the wind-direction clause -/

theorem buildEvent_description (u ld : String) (z : Int) (xs : List Extracted) :
    (buildEvent u ld z xs).description = String.intercalate " | "
      (if 0 < pyAvg ((xs.map (fun x => x.wind_deg)).filter (fun d => 0 < d)) then
        descParts (temp_unit_of u) (wind_unit_of u) (pyMin (xs.map (fun x => x.temp)))
          (pyMax (xs.map (fun x => x.temp))) (condAndDesc (xs.map (fun x => x.cond))).2
          (pyAvg (xs.map (fun x => x.humidity))) (pyAvg (xs.map (fun x => x.wind_speed)))
          (pyAvg (xs.map (fun x => x.clouds_all))) (pyAvg (xs.map (fun x => x.pressure))) ++
        ["Wind Direction: " ++
          compassOf (pyAvg ((xs.map (fun x => x.wind_deg)).filter (fun d => 0 < d)))]
      else
        descParts (temp_unit_of u) (wind_unit_of u) (pyMin (xs.map (fun x => x.temp)))
          (pyMax (xs.map (fun x => x.temp))) (condAndDesc (xs.map (fun x => x.cond))).2
          (pyAvg (xs.map (fun x => x.humidity))) (pyAvg (xs.map (fun x => x.wind_speed)))
          (pyAvg (xs.map (fun x => x.clouds_all))) (pyAvg (xs.map (fun x => x.pressure)))) := rfl

/-- Counterexample to C5 as stated: a day with wind-degree readings -10 and
30.  The mean of the non-zero readings is 10, whose compass point is N, but
the emitted description carries the clause Wind Direction: NNE, because the
source averages only the strictly positive readings (mean 30). -/
theorem fetch_events_wind_negative_deg_counterexample :
    (fetch_events "London" (some "k") 5 "metric" none exGeo
        (exFore [exWindA, exWindB])).map (fun l => l.map Event.description) =
      .ok ["Temperature: 0" ++ temp_unit_of "metric" ++ " - 0" ++ temp_unit_of "metric" ++
        " | Condition:  | Humidity: 50% | Wind: 0.0 m/s | Clouds: 0% | Pressure: 1000 hPa" ++
        " | Wind Direction: NNE"] ∧
    compassOf (((-10) + 30) / 2) = "N" ∧ ("NNE" : String) ≠ "N" := by
  refine ⟨?_, ?_, ?_⟩
  · with_unfolding_all decide
  · with_unfolding_all decide
  · decide

/-- C5 amended: for each emitted day, when some wind-degree reading of the
day is strictly positive the description ends with a Wind Direction clause
rendering the compass point of the arithmetic mean of the strictly positive
readings; when no reading is strictly positive the clause is absent (the
description is exactly the six base parts). -/
theorem fetch_events_wind_direction (location : String) (api_key : Option String) (days : Int)
    (units : String) (env_api_key : Option String) (geocode : GeoParams → HttpResp GeoBody)
    (fstatus : Int) (fcod : Option JPrim) (fmsg : Option String) (samples : List Sample)
    (evs : List Event) (ev : Event)
    (h : fetch_events location api_key days units env_api_key geocode
      (fun _ => .response fstatus (some (.jdict fcod fmsg (some samples)))) = .ok evs)
    (hev : ev ∈ evs) :
    windDirectionSpec (normUnits units) samples ev := by
  obtain ⟨ld, z, hevq, hzmem, hrange⟩ := fetch_events_mem_shape h hev
  have hdesc := buildEvent_description (normUnits units) ld z (dayExtracts samples z)
  rw [dayExtracts_wind_deg] at hdesc
  refine ⟨z, by rw [hevq]; rfl, ?_, ?_⟩
  · intro hempty
    rw [hevq, hdesc, hempty]
    rw [if_neg (by simp [pyAvg_nil])]
    rfl
  · intro hne
    have hpos : 0 < pyAvg ((dayWindDegs samples z).filter (fun d => 0 < d)) := by
      apply pyAvg_pos
      · intro t ht
        have := (List.mem_filter.mp ht).2
        simpa using this
      · exact hne
    rw [hevq, hdesc, if_pos hpos]
    rfl

/-- Witness for the amended C5 at a concrete call. -/
theorem fetch_events_wind_direction_witness :
    windDirectionSpec (normUnits "metric") [exWindA, exWindB]
      (buildEvent (normUnits "metric") "London" 1 (dayExtracts [exWindA, exWindB] 1)) :=
  fetch_events_wind_direction "London" (some "k") 5 "metric" none exGeo 200 none none
    [exWindA, exWindB]
    [buildEvent (normUnits "metric") "London" 1 (dayExtracts [exWindA, exWindB] 1)]
    (buildEvent (normUnits "metric") "London" 1 (dayExtracts [exWindA, exWindB] 1))
    (by with_unfolding_all decide) (List.mem_singleton.mpr rfl)

/-! ### C6: temperature statistics and the title -/

theorem buildEvent_title (u ld : String) (z : Int) (xs : List Extracted) :
    (buildEvent u ld z xs).title =
      get_weather_emoji (condAndDesc (xs.map (fun x => x.cond))).1
        (condAndDesc (xs.map (fun x => x.cond))).2 ++ " " ++
      toString (pyTrunc (pyAvg (xs.map (fun x => x.temp)))) ++ temp_unit_of u ++ " " ++ ld := rfl

/-- C6: for every emitted day the computed temperature minimum, maximum and
average are the least element, greatest element and arithmetic mean of the
sample temperatures of the day, the empty-bucket defaults are 0, the event
title renders the integer-truncated average, and a day with temperatures
10, 15, 20 yields min 10, max 20, average 15, rendered as the string 15. -/
theorem fetch_events_temperature_stats :
    (∀ (location : String) (api_key : Option String) (days : Int) (units : String)
      (env_api_key : Option String) (geocode : GeoParams → HttpResp GeoBody)
      (fstatus : Int) (fcod : Option JPrim) (fmsg : Option String) (samples : List Sample)
      (evs : List Event) (ev : Event),
      fetch_events location api_key days units env_api_key geocode
        (fun _ => .response fstatus (some (.jdict fcod fmsg (some samples)))) = .ok evs →
      ev ∈ evs → tempStatsSpec (normUnits units) ev.location samples ev) ∧
    pyMin [] = 0 ∧ pyMax [] = 0 ∧ pyAvg [] = 0 ∧
    pyMin [10, 15, 20] = 10 ∧ pyMax [10, 15, 20] = 20 ∧ pyAvg [10, 15, 20] = 15 ∧
    toString (pyTrunc (pyAvg [10, 15, 20])) = "15" := by
  refine ⟨?_, rfl, rfl, rfl, by with_unfolding_all decide, by with_unfolding_all decide,
    by with_unfolding_all decide, by with_unfolding_all decide⟩
  intro location api_key days units env_api_key geocode fstatus fcod fmsg samples evs ev h hev
  obtain ⟨ld, z, hevq, hzmem, hrange⟩ := fetch_events_mem_shape h hev
  have hloc : ev.location = ld := by rw [hevq]; rfl
  refine ⟨z, by rw [hevq]; rfl, ?_, ?_⟩
  · intro hne
    refine ⟨(pyMin_spec _ hne).1, (pyMin_spec _ hne).2, (pyMax_spec _ hne).1,
      (pyMax_spec _ hne).2, ?_⟩
    unfold pyAvg
    rw [if_neg hne]
  · rw [hloc, hevq, buildEvent_title, dayExtracts_temp]

/-- Witness for C6 at a concrete call with temperatures 10, 15, 20 on one
day. -/
theorem fetch_events_temperature_stats_witness :
    tempStatsSpec (normUnits "metric")
      (buildEvent (normUnits "metric") "London" 1 (dayExtracts [exSample, exT15, exT20] 1)).location
      [exSample, exT15, exT20]
      (buildEvent (normUnits "metric") "London" 1 (dayExtracts [exSample, exT15, exT20] 1)) :=
  fetch_events_temperature_stats.1 "London" (some "k") 5 "metric" none exGeo 200 none none
    [exSample, exT15, exT20]
    [buildEvent (normUnits "metric") "London" 1 (dayExtracts [exSample, exT15, exT20] 1)]
    (buildEvent (normUnits "metric") "London" 1 (dayExtracts [exSample, exT15, exT20] 1))
    (by with_unfolding_all decide) (List.mem_singleton.mpr rfl)

/-! ### C10: defaults for missing numeric fields -/

/-- C10: a sample with a nonzero timestamp contributes to its day bucket
even when numeric fields are missing; each missing field is extracted as 0,
the bucket of a day is exactly the extraction of its valid samples, and in
a concrete day with temperatures 10, missing, 20 the missing temperature
contributes 0, so the minimum is 0, the average 10 and the maximum 20, as
the emitted description and title show. -/
theorem fetch_events_missing_fields_default_zero :
    (∀ s : Sample, (s.temp = none → (extractOf s).temp = 0) ∧
      (s.humidity = none → (extractOf s).humidity = 0) ∧
      (s.pressure = none → (extractOf s).pressure = 0) ∧
      (s.wind_speed = none → (extractOf s).wind_speed = 0) ∧
      (s.wind_deg = none → (extractOf s).wind_deg = 0) ∧
      (s.clouds_all = none → (extractOf s).clouds_all = 0)) ∧
    (∀ (samples : List Sample) (checked : List (Int × Extracted)) (z : Int),
      checkSamples samples = .ok checked →
      (checked.filter (fun p => p.1 = z)).map (fun p => p.2) = dayExtracts samples z) ∧
    (dayTemps [exSample, exNoTemp, exT20] 1 = [10, 0, 20] ∧
      pyMin (dayTemps [exSample, exNoTemp, exT20] 1) = 0 ∧
      pyAvg (dayTemps [exSample, exNoTemp, exT20] 1) = 10 ∧
      pyMax (dayTemps [exSample, exNoTemp, exT20] 1) = 20) ∧
    (fetch_events "London" (some "k") 5 "metric" none exGeo
        (exFore [exSample, exNoTemp, exT20])).map (fun l => l.map Event.description) =
      .ok ["Temperature: 0" ++ temp_unit_of "metric" ++ " - 20" ++ temp_unit_of "metric" ++
        " | Condition:  | Humidity: 50% | Wind: 0.0 m/s | Clouds: 0% | Pressure: 1000 hPa"] := by
  refine ⟨?_, ?_, ?_, ?_⟩
  · intro s
    refine ⟨?_, ?_, ?_, ?_, ?_, ?_⟩ <;> (intro hnone; unfold extractOf; rw [hnone]; rfl)
  · intro samples checked z hc
    exact checkSamples_bucket hc z
  · refine ⟨?_, ?_, ?_, ?_⟩ <;> with_unfolding_all decide
  · with_unfolding_all decide

set_option maxRecDepth 4000 in
/-- Witness for C10: the bucket-extraction conjunct applied at a concrete
day. -/
theorem fetch_events_missing_fields_default_zero_witness :
    ([((1 : Int), extractOf exSample), (1, extractOf exNoTemp),
        (1, extractOf exT20)].filter (fun p => p.1 = 1)).map (fun p => p.2) =
      dayExtracts [exSample, exNoTemp, exT20] 1 :=
  fetch_events_missing_fields_default_zero.2.1 [exSample, exNoTemp, exT20]
    [(1, extractOf exSample), (1, extractOf exNoTemp), (1, extractOf exT20)] 1
    (by with_unfolding_all decide)

/-! ### C8: uid stability and uniqueness -/

theorem append_left_cancel_ne (a : String) {b c : String} (h : b ≠ c) : a ++ b ≠ a ++ c := by
  intro he
  apply h
  obtain ⟨la⟩ := a
  obtain ⟨lb⟩ := b
  obtain ⟨lc⟩ := c
  have h2 : la ++ lb = la ++ lc := congrArg String.data he
  exact congrArg String.mk (List.append_cancel_left h2)

/-- C8: uid generation is deterministic and stable - the uid of every
emitted event is the string weather-slug-YYYYMMDD built from the display
city name and the calendar date, any two events of any two runs that carry
the same display name and date carry the identical uid, and within one
response built from samples with nonnegative timestamps the uids of
distinct days are distinct. -/
theorem fetch_events_uid_stable_unique :
    (∀ (location : String) (api_key : Option String) (days : Int) (units : String)
      (env_api_key : Option String) (geocode : GeoParams → HttpResp GeoBody)
      (forecast : ForecastParams → HttpResp ForeBody) (evs : List Event) (ev : Event),
      fetch_events location api_key days units env_api_key geocode forecast = .ok evs →
      ev ∈ evs →
      ev.uid = "weather-" ++ make_slug ev.location ++ "-" ++ dateStr ev.start) ∧
    (∀ (location1 location2 : String) (api_key1 api_key2 : Option String)
      (days1 days2 : Int) (units1 units2 : String) (env1 env2 : Option String)
      (geocode1 geocode2 : GeoParams → HttpResp GeoBody)
      (forecast1 forecast2 : ForecastParams → HttpResp ForeBody)
      (evs1 evs2 : List Event) (ev1 ev2 : Event),
      fetch_events location1 api_key1 days1 units1 env1 geocode1 forecast1 = .ok evs1 →
      fetch_events location2 api_key2 days2 units2 env2 geocode2 forecast2 = .ok evs2 →
      ev1 ∈ evs1 → ev2 ∈ evs2 → ev1.location = ev2.location → ev1.start = ev2.start →
      ev1.uid = ev2.uid) ∧
    (∀ (location : String) (api_key : Option String) (days : Int) (units : String)
      (env_api_key : Option String) (geocode : GeoParams → HttpResp GeoBody)
      (fstatus : Int) (fcod : Option JPrim) (fmsg : Option String) (samples : List Sample)
      (evs : List Event) (ev1 ev2 : Event),
      fetch_events location api_key days units env_api_key geocode
        (fun _ => .response fstatus (some (.jdict fcod fmsg (some samples)))) = .ok evs →
      (∀ s ∈ samples, 0 ≤ s.dt) →
      ev1 ∈ evs → ev2 ∈ evs → ev1.start ≠ ev2.start → ev1.uid ≠ ev2.uid) := by
  have huid : ∀ (location : String) (api_key : Option String) (days : Int) (units : String)
      (env_api_key : Option String) (geocode : GeoParams → HttpResp GeoBody)
      (forecast : ForecastParams → HttpResp ForeBody) (evs : List Event) (ev : Event),
      fetch_events location api_key days units env_api_key geocode forecast = .ok evs →
      ev ∈ evs →
      ev.uid = "weather-" ++ make_slug ev.location ++ "-" ++ dateStr ev.start := by
    intro location api_key days units env_api_key geocode forecast evs ev h hev
    obtain ⟨ld, z, xs, hevq⟩ := fetch_events_mem_build h hev
    rw [hevq, buildEvent_uid, buildEvent_location, buildEvent_start]
  refine ⟨huid, ?_, ?_⟩
  · intro l1 l2 a1 a2 d1 d2 u1 u2 e1 e2 g1 g2 f1 f2 evs1 evs2 ev1 ev2 h1 h2 hm1 hm2 hloc hst
    rw [huid l1 a1 d1 u1 e1 g1 f1 evs1 ev1 h1 hm1,
      huid l2 a2 d2 u2 e2 g2 f2 evs2 ev2 h2 hm2, hloc, hst]
  · intro location api_key days units env_api_key geocode fstatus fcod fmsg samples evs
      ev1 ev2 h hpos hm1 hm2 hne
    obtain ⟨ld1, z1, hevq1, hz1, hrange⟩ := fetch_events_mem_shape h hm1
    obtain ⟨ld2, z2, hevq2, hz2, _⟩ := fetch_events_mem_shape h hm2
    have hld : ld1 = ld2 := by
      have e1 := fetch_events_ok h
      obtain ⟨k, lat, lon, ld, samples', checked, hk, hg, hf, hc, hevs⟩ := e1
      -- both events come from the same map over buildEvent with the same ld
      rw [hevs] at hm1 hm2
      obtain ⟨za, _, ha⟩ := List.mem_map.mp hm1
      obtain ⟨zb, _, hb⟩ := List.mem_map.mp hm2
      have hla : ev1.location = ld := by rw [← ha]; rfl
      have hlb : ev2.location = ld := by rw [← hb]; rfl
      have h1 : ev1.location = ld1 := by rw [hevq1]; rfl
      have h2 : ev2.location = ld2 := by rw [hevq2]; rfl
      rw [h1] at hla
      rw [h2] at hlb
      rw [hla, hlb]
    -- bounds on the day keys
    have hbz1 : 0 ≤ z1 ∧ z1 ≤ 2932896 := by
      obtain ⟨s, hsmem, hsday⟩ := List.mem_map.mp hz1
      obtain ⟨hsin, hsdt⟩ := List.mem_filter.mp hsmem
      have hdt0 : s.dt ≠ 0 := by simpa using hsdt
      have hr := hrange s hsin hdt0
      have hp := hpos s hsin
      unfold sampleDay at hsday
      omega
    have hbz2 : 0 ≤ z2 ∧ z2 ≤ 2932896 := by
      obtain ⟨s, hsmem, hsday⟩ := List.mem_map.mp hz2
      obtain ⟨hsin, hsdt⟩ := List.mem_filter.mp hsmem
      have hdt0 : s.dt ≠ 0 := by simpa using hsdt
      have hr := hrange s hsin hdt0
      have hp := hpos s hsin
      unfold sampleDay at hsday
      omega
    have hz12 : z1 ≠ z2 := by
      intro hzz
      apply hne
      rw [hevq1, hevq2, hzz, buildEvent_start, buildEvent_start]
    have hds : dateStr z1 ≠ dateStr z2 :=
      dateStr_inj z1 z2 hbz1.1 hbz1.2 hbz2.1 hbz2.2 hz12
    rw [hevq1, hevq2, buildEvent_uid, buildEvent_uid, hld]
    exact append_left_cancel_ne ("weather-" ++ make_slug ld2 ++ "-") hds

/-- Witness for C8: the uid form at a concrete emitted event. -/
theorem fetch_events_uid_stable_unique_witness :
    (buildEvent "metric" "London" 1 [extractOf exSample]).uid =
      "weather-" ++ make_slug (buildEvent "metric" "London" 1 [extractOf exSample]).location ++
      "-" ++ dateStr (buildEvent "metric" "London" 1 [extractOf exSample]).start :=
  fetch_events_uid_stable_unique.1 "London" (some "k") 5 "metric" none exGeo
    (exFore [exSample]) [buildEvent "metric" "London" 1 [extractOf exSample]]
    (buildEvent "metric" "London" 1 [extractOf exSample])
    (by with_unfolding_all decide) (List.mem_singleton.mpr rfl)
